import Mathlib

/-! The frame push pipeline of `src/app.cpp` (esp32-cam-push).

A shallow embedding of `send_cam_stream` (the Stream Driver), of
`sendCameraFrames` (the Session Manager) and of `set_cam_conf`, with the
protocol constants they use, followed by theorems about them.

Conventions of the embedding.

* Every call the code makes to the outside (camera driver, JPEG encoder,
  transport, timer, logger) is recorded as an `Event`; the value the outside
  returns is an input of the model (`IterEnv`, `StreamEnv`, `SessionEnv`).
  One `IterEnv` holds the answers the outside gives during one turn of the
  `while (true)` loop; a list of them is the (finite) part of the run that is
  observed, so every finite run of the code is the run of some list.
* A pointer to a buffer is an `Option Buf` (`none` is `NULL`); a `Buf` is the
  address together with the bytes stored there.
* `size_t` and `unsigned` are 32 bits wide, `int` is 32 bits wide (ESP32).
-/

namespace EspCamPush

/-! ## Data model -/

/-- Bytes on the wire and in memory, each a number below 256. -/
abbrev Bytes := List Nat

/-- The bytes of a C string literal (without the terminating NUL). -/
def cstr (s : String) : Bytes := s.data.map Char.toNat

/-- Modelled from the spec: the pixel format tag of a captured frame
(`pixformat_t` of `esp_camera.h`, which is not part of the repository); the
code only distinguishes `PIXFORMAT_JPEG`, the wire format, from the rest. -/
inductive pixformat_t where
  | PIXFORMAT_RGB565
  | PIXFORMAT_YUV422
  | PIXFORMAT_YUV420
  | PIXFORMAT_GRAYSCALE
  | PIXFORMAT_JPEG
  | PIXFORMAT_RGB888
  | PIXFORMAT_RAW
  | PIXFORMAT_RGB444
  | PIXFORMAT_RGB555
  deriving DecidableEq, Repr

/-- Modelled from the spec: the capture timestamp, seconds and microseconds
(`struct timeval`, declared in a system header). -/
structure timeval where
  tv_sec : Int
  tv_usec : Int
  deriving DecidableEq, Repr

/-- A buffer in memory: its address and the bytes stored from that address on. -/
structure Buf where
  addr : Nat
  bytes : Bytes
  deriving DecidableEq, Repr

/-- Modelled from the spec: the captured frame (`camera_fb_t` of
`esp_camera.h`): buffer, byte length, pixel format tag, capture timestamp. -/
structure camera_fb_t where
  buf : Buf
  len : Nat
  format : pixformat_t
  timestamp : timeval
  deriving DecidableEq, Repr

/-- The type `esp_err_t` is an `int`. -/
abbrev esp_err_t := Int

def ESP_OK : esp_err_t := 0

def ESP_FAIL : esp_err_t := -1

/-! ## Protocol constants (`src/app.cpp`, lines 28-32) -/

def PART_BOUNDARY : String := "123456789000000000000987654321"

def _STREAM_HANDSHAKE : Bytes :=
  [0xa6, 0xf6, 0xa0, 0x7b, 0xe9, 0xb6, 0xd0, 0xe5, 0x73, 0x4e, 0x06, 0x59, 0xcf, 0xc7, 0xa3, 0xe9,
   0xda, 0xca, 0xb5, 0x82, 0xf9, 0x11, 0xfe, 0xc7, 0x7f, 0xc0, 0xc4, 0x16, 0x57, 0x7d, 0xea, 0x06]

def _STREAM_CONTENT_TYPE : String := "multipart/x-mixed-replace;boundary=" ++ PART_BOUNDARY

def _STREAM_BOUNDARY : String := "\r\n--" ++ PART_BOUNDARY ++ "\r\n"

def _STREAM_PART : String :=
  "Content-Type: image/jpeg\r\nContent-Length: %u\r\nX-Timestamp: %d.%06d\r\n\r\n"

/-- The C function `strlen`. -/
def strlen (s : String) : Nat := (cstr s).length

/-! ## `snprintf`, for the directives the program uses -/

/-- An argument passed through the variable argument list. -/
inductive printf_arg where
  | uint (n : Nat)
  | int (i : Int)
  deriving DecidableEq, Repr

/-- The value as a 32-bit `unsigned`. -/
def as_unsigned : printf_arg → Nat
  | .uint n => n % 2 ^ 32
  | .int i => (i % 2 ^ 32).toNat

/-- The value as a 32-bit two's complement `int`. -/
def as_signed : printf_arg → Int
  | .uint n => ((n : Int) + 2 ^ 31) % 2 ^ 32 - 2 ^ 31
  | .int i => (i + 2 ^ 31) % 2 ^ 32 - 2 ^ 31

/-- One converted number: sign, padding up to the field width, digits. With the
`0` flag the padding is zeros placed after the sign, otherwise blanks before it. -/
def fmt_number (zero : Bool) (width : Nat) (neg : Bool) (digits : List Char) : List Char :=
  let sign : List Char := if neg then ['-'] else []
  let pad := width - (sign.length + digits.length)
  if zero then sign ++ List.replicate pad '0' ++ digits
  else List.replicate pad ' ' ++ sign ++ digits

/-- Where the scanner of the format string is: in literal text, or inside a
conversion specification after `%` (flag `0` seen, width read so far). -/
inductive Scan where
  | text
  | conv (zero : Bool) (width : Nat)

/-- The characters `printf` produces for a format string, for the conversions
`%u`, `%d`, `%%` with an optional `0` flag and field width. -/
def vformat : Scan → List Char → List printf_arg → List Char
  | _, [], _ => []
  | .text, c :: cs, args =>
    if c = '%' then vformat (.conv false 0) cs args else c :: vformat .text cs args
  | .conv z w, c :: cs, args =>
    if c = '%' then '%' :: vformat .text cs args
    else if c = '0' ∧ w = 0 ∧ z = false then vformat (.conv true 0) cs args
    else if c.isDigit then vformat (.conv z (10 * w + (c.toNat - 48))) cs args
    else if c = 'u' then
      match args with
      | a :: rest =>
        fmt_number z w false (Nat.toDigits 10 (as_unsigned a)) ++ vformat .text cs rest
      | [] => vformat .text cs []
    else if c = 'd' then
      match args with
      | a :: rest =>
        fmt_number z w (decide (as_signed a < 0)) (Nat.toDigits 10 (as_signed a).natAbs)
          ++ vformat .text cs rest
      | [] => vformat .text cs []
    else vformat .text cs args

/-- The C function `snprintf(buf, size, fmt, ...)`: at most `size - 1`
characters and a NUL are stored at the start of `buf`, the rest of `buf` keeps
its content; the value returned is the length of the whole formatted text. -/
def snprintf (buf : Bytes) (size : Nat) (fmt : String) (args : List printf_arg) : Bytes × Nat :=
  let out : Bytes := (vformat .text fmt.data args).map Char.toNat
  if size = 0 then (buf, out.length)
  else
    let stored := out.take (size - 1) ++ [0]
    (stored ++ buf.drop stored.length, out.length)

/-- Reading `n` bytes through a pointer. -/
def read_bytes (p : Option Buf) (n : Nat) : Bytes :=
  match p with
  | none => []
  | some b => b.bytes.take n

/-! ## Calls to the outside, and what the outside answers -/

/-- An argument of a sensor setter: a number or one of the named constants of
the sensor header. -/
inductive sensor_arg where
  | val (i : Int)
  | FRAMESIZE_XGA
  | GAINCEILING_2X
  deriving DecidableEq, Repr

/-- The address of the server (`IPAddress`), as a number. -/
abbrev IPAddress := Nat

/-- A call the program makes to the outside, with the value returned. -/
inductive Event where
  | esp_timer_get_time (t : Int)
  | esp_camera_fb_get (r : Option camera_fb_t)
  | frame2jpg (fb : camera_fb_t) (quality : Nat) (r : Option (Buf × Nat))
  | esp_camera_fb_return (fb : camera_fb_t)
  | free (p : Buf)
  | client_write (data : Bytes) (written : Nat)
  | client_setTimeout (seconds : Nat)
  | client_connect (server : IPAddress) (port : Nat) (ok : Bool)
  | client_stop
  | delay (ms : Nat)
  | esp_camera_sensor_get
  | sensor_set (setter : String) (arg : sensor_arg)
  | log_e (msg : String)
  | log_i (msg : String)
  | log_i_connecting (server : IPAddress) (port : Nat)
  | log_i_mjpg (len : Nat) (ms : Nat)
  deriving DecidableEq, Repr

/-- What the outside answers during one turn of the loop of `send_cam_stream`:
the result of `esp_camera_fb_get`, the outcome of `frame2jpg` (the buffer it
allocates and its length, or failure), the values returned by the three
`client.write` calls and by `esp_timer_get_time`. An answer is used only if the
call is made. -/
structure IterEnv where
  fb_get : Option camera_fb_t
  jpg : Option (Buf × Nat)
  written_boundary : Nat
  written_header : Nat
  written_payload : Nat
  fr_end : Int
  deriving DecidableEq, Repr

/-- The variables of `send_cam_stream` (lines 64-71); `last_frame` is the
function's static variable. -/
structure Locals where
  fb : Option camera_fb_t
  _timestamp : timeval
  res : esp_err_t
  _jpg_buf_len : Nat
  _jpg_buf : Option Buf
  part_buf : Bytes
  last_frame : Int
  deriving DecidableEq, Repr

/-- How a turn of the loop ends: `again` for the next turn (`continue` or the
end of the body), `leave` for `break`. -/
inductive Ctl where
  | again
  | leave
  deriving DecidableEq, Repr

/-! ## `send_cam_stream` (lines 63-137) -/

/-- Lines 79-98: capture a frame and convert it unless it is JPEG already.
The encoder `frame2jpg` (of `img_converters.h`, outside the repository)
produces no payload when it fails, as the spec has it, so `_jpg_buf` and
`_jpg_buf_len` change only when it succeeds. -/
def capture (e : IterEnv) (s : Locals) : Locals × List Event :=
  match e.fb_get with
  | none =>
    ({ s with fb := none, res := ESP_FAIL },
      [.esp_camera_fb_get none, .log_e "Camera capture failed"])
  | some fb =>
    let s1 : Locals :=
      { s with fb := some fb, _timestamp := ⟨fb.timestamp.tv_sec, fb.timestamp.tv_usec⟩ }
    if fb.format ≠ .PIXFORMAT_JPEG then
      match e.jpg with
      | some (b, n) =>
        ({ s1 with _jpg_buf := some b, _jpg_buf_len := n, fb := none },
          [.esp_camera_fb_get (some fb), .frame2jpg fb 80 (some (b, n)),
           .esp_camera_fb_return fb])
      | none =>
        ({ s1 with fb := none, res := ESP_FAIL },
          [.esp_camera_fb_get (some fb), .frame2jpg fb 80 none,
           .esp_camera_fb_return fb, .log_e "JPEG compression failed"])
    else
      ({ s1 with _jpg_buf_len := fb.len, _jpg_buf := some fb.buf },
        [.esp_camera_fb_get (some fb)])

/-- Line 107: the header is formatted into `part_buf`; the result is the new
content of `part_buf` and `hlen`. -/
def format_part (s : Locals) : Bytes × Nat :=
  snprintf s.part_buf 128 _STREAM_PART
    [.uint s._jpg_buf_len, .int s._timestamp.tv_sec, .int s._timestamp.tv_usec]

/-- Lines 104-112: the writes of one frame; the result is the locals, the
calls made and the final value of `written`. -/
def send (e : IterEnv) (s : Locals) : Locals × List Event × Nat :=
  let boundary : Locals × List Event × Nat :=
    (s, [.client_write ((cstr _STREAM_BOUNDARY).take (strlen _STREAM_BOUNDARY))
          e.written_boundary], e.written_boundary)
  let header : Locals × List Event × Nat :=
    if boundary.2.2 > 0 then
      ({ s with part_buf := (format_part s).1 },
        boundary.2.1
          ++ [.client_write ((format_part s).1.take (format_part s).2) e.written_header],
        e.written_header)
    else boundary
  if header.2.2 > 0 then
    (header.1,
      header.2.1
        ++ [.client_write (read_bytes header.1._jpg_buf header.1._jpg_buf_len)
              e.written_payload],
      e.written_payload)
  else header

/-- Lines 113-120: give the frame back, or free the converted buffer. -/
def release (s : Locals) : Locals × List Event :=
  match s.fb with
  | some fb => ({ s with fb := none, _jpg_buf := none }, [.esp_camera_fb_return fb])
  | none =>
    match s._jpg_buf with
    | some b => ({ s with _jpg_buf := none }, [.free b])
    | none => (s, [])

/-- Lines 121-133: leave the loop if the last write returned nothing, else
measure the frame time (the rate printed as a floating point number is left
out of the log event). -/
def finish (e : IterEnv) (s : Locals) (written : Nat) : Locals × List Event × Ctl :=
  if written ≤ 0 then
    ({ s with res := ESP_FAIL }, [.log_e "Send frame failed"], .leave)
  else
    let fr_end := e.fr_end
    let frame_time := (fr_end - s.last_frame).tdiv 1000
    ({ s with last_frame := fr_end },
      [.esp_timer_get_time fr_end,
       .log_i_mjpg (s._jpg_buf_len % 2 ^ 32) (frame_time % 2 ^ 32).toNat],
      .again)

/-- The outcome of one turn of the loop. -/
structure Turn where
  locals : Locals
  events : List Event
  ctl : Ctl

/-- Lines 104-133: send the frame held in the variables, release it, and
decide how the turn ends. -/
def transmit (e : IterEnv) (c : Locals) : Turn :=
  let w := send e c
  let r := release w.1
  let f := finish e r.1 w.2.2
  ⟨f.1, w.2.1 ++ r.2 ++ f.2.1, f.2.2⟩

/-- Lines 77-133: the body of the `while (true)` loop. -/
def loop_body (e : IterEnv) (s : Locals) : Turn :=
  let c := capture e { s with res := ESP_OK }
  if c.1.res = ESP_FAIL then ⟨c.1, c.2, .again⟩
  else ⟨(transmit e c.1).locals, c.2 ++ (transmit e c.1).events, (transmit e c.1).ctl⟩

/-- What is seen of a run of `send_cam_stream`: the value returned (`none`
while the loop is still running after the turns observed), the variables and
the calls made. -/
structure Run where
  res : Option esp_err_t
  locals : Locals
  events : List Event

/-- Lines 76-136: the loop, run for the turns whose answers are given. -/
def while_true : List IterEnv → Locals → Run
  | [], s => ⟨none, s, []⟩
  | e :: es, s =>
    match (loop_body e s).ctl with
    | .again =>
      ⟨(while_true es (loop_body e s).locals).res,
       (while_true es (loop_body e s).locals).locals,
       (loop_body e s).events ++ (while_true es (loop_body e s).locals).events⟩
    | .leave => ⟨some (loop_body e s).locals.res, (loop_body e s).locals, (loop_body e s).events⟩

/-- What the outside gives to one call of `send_cam_stream`: the timer value
at entry, the content of the uninitialised stack variables, and the answers
for each turn of the loop. -/
structure StreamEnv where
  timer0 : Int
  stack_timestamp : timeval
  stack_part_buf : Bytes
  turns : List IterEnv
  deriving DecidableEq, Repr

/-- The variables at the head of the loop: lines 64-74, given the value of the
static `last_frame`. -/
def entry (last_frame : Int) (env : StreamEnv) : Locals :=
  { fb := none, _timestamp := env.stack_timestamp, res := ESP_OK, _jpg_buf_len := 0,
    _jpg_buf := none, part_buf := env.stack_part_buf,
    last_frame := if last_frame = 0 then env.timer0 else last_frame }

/-- The function `send_cam_stream` (lines 63-137). -/
def send_cam_stream (last_frame : Int) (env : StreamEnv) : Run :=
  let r := while_true env.turns (entry last_frame env)
  if last_frame = 0 then
    ⟨r.res, r.locals, .esp_timer_get_time env.timer0 :: r.events⟩
  else r

/-! ## `set_cam_conf` (lines 34-61) and `sendCameraFrames` (lines 139-153) -/

/-- The function `set_cam_conf`: the calls made on the sensor, given the pixel
format it reports. -/
def set_cam_conf (pixformat : pixformat_t) : List Event :=
  [.esp_camera_sensor_get]
  ++ (if pixformat = .PIXFORMAT_JPEG then [.sensor_set "set_framesize" .FRAMESIZE_XGA] else [])
  ++ [.sensor_set "set_quality" (.val 10),
      .sensor_set "set_contrast" (.val 0),
      .sensor_set "set_brightness" (.val 0),
      .sensor_set "set_saturation" (.val 0),
      .sensor_set "set_gainceiling" .GAINCEILING_2X,
      .sensor_set "set_colorbar" (.val 0),
      .sensor_set "set_whitebal" (.val 1),
      .sensor_set "set_gain_ctrl" (.val 1),
      .sensor_set "set_exposure_ctrl" (.val 1),
      .sensor_set "set_hmirror" (.val 0),
      .sensor_set "set_vflip" (.val 0),
      .sensor_set "set_awb_gain" (.val 1),
      .sensor_set "set_agc_gain" (.val 0),
      .sensor_set "set_dcw" (.val 1),
      .sensor_set "set_bpc" (.val 0),
      .sensor_set "set_wpc" (.val 1),
      .sensor_set "set_raw_gma" (.val 1),
      .sensor_set "set_lenc" (.val 1),
      .sensor_set "set_special_effect" (.val 0),
      .sensor_set "set_wb_mode" (.val 0),
      .sensor_set "set_ae_level" (.val 0)]

/-- What the outside gives to one call of `sendCameraFrames`: whether
`client.connect` succeeds, the pixel format the sensor reports, the value
returned by the handshake write, the value of the static `last_frame`, and the
answers for the Stream Driver. -/
structure SessionEnv where
  connected : Bool
  sensor_pixformat : pixformat_t
  written_handshake : Nat
  last_frame : Int
  stream : StreamEnv
  deriving DecidableEq, Repr

/-- What is seen of a call of `sendCameraFrames`: whether it has returned, and
the calls made. -/
structure Session where
  returned : Bool
  events : List Event
  deriving DecidableEq, Repr

/-- The value of `sizeof(_STREAM_HANDSHAKE)`: the number of bytes of the array. -/
def sizeof_STREAM_HANDSHAKE : Nat := _STREAM_HANDSHAKE.length

/-- The function `sendCameraFrames` (lines 139-153). -/
def sendCameraFrames (server : IPAddress) (port : Nat) (env : SessionEnv) : Session :=
  let opening : List Event :=
    [.client_setTimeout 5, .log_i_connecting server port,
     .client_connect server port env.connected]
  if env.connected then
    let r := send_cam_stream env.last_frame env.stream
    let ev : List Event :=
      opening
      ++ [.client_setTimeout 0, .log_i "Sending camera stream"]
      ++ set_cam_conf env.sensor_pixformat
      ++ [.client_write (_STREAM_HANDSHAKE.take sizeof_STREAM_HANDSHAKE) env.written_handshake]
      ++ r.events
    match r.res with
    | some _ => ⟨true, ev ++ [.client_stop, .delay 1000]⟩
    | none => ⟨false, ev⟩
  else ⟨true, opening ++ [.delay 1000]⟩

/-! ## The header as the specification words it -/

/-- The decimal numeral of a natural number, as characters. -/
def decimal (n : Nat) : List Char := (toString n).data

/-- The decimal numeral of an integer, with a minus sign when negative. -/
def decimal_int (i : Int) : List Char := (toString i).data

/-- The format `{U:06d}`: the decimal numeral padded with zeros after the sign
to a width of at least 6. -/
def zero_padded6 (U : Int) : List Char :=
  if U < 0 then '-' :: List.leftpad 5 '0' (decimal U.natAbs)
  else List.leftpad 6 '0' (decimal U.natAbs)

/-- The header of a part, following the words of the specification:
`Content-Type: image/jpeg\r\nContent-Length: {L}\r\nX-Timestamp: {S}.{U:06d}\r\n\r\n`. -/
def header_spec (L : Nat) (S U : Int) : Bytes :=
  cstr "Content-Type: image/jpeg\r\nContent-Length: " ++ (decimal L).map Char.toNat
    ++ cstr "\r\nX-Timestamp: " ++ (decimal_int S).map Char.toNat ++ cstr "."
    ++ (zero_padded6 U).map Char.toNat ++ cstr "\r\n\r\n"

/-! ## Reading a list of calls -/

/-- The transport write behind a call: the bytes passed and the value returned. -/
def as_write : Event → Option (Bytes × Nat)
  | .client_write d w => some (d, w)
  | _ => none

/-- The transport writes among the calls, in order. -/
def writes (evs : List Event) : List (Bytes × Nat) := evs.filterMap as_write

/-- The frame behind a successful capture. -/
def as_captured : Event → Option camera_fb_t
  | .esp_camera_fb_get (some fb) => some fb
  | _ => none

/-- The frames captured, in order. -/
def captured (evs : List Event) : List camera_fb_t := evs.filterMap as_captured

/-- The frame behind a call of `esp_camera_fb_return`. -/
def as_returned : Event → Option camera_fb_t
  | .esp_camera_fb_return fb => some fb
  | _ => none

/-- The frames given back to the frame source, in order. -/
def returned (evs : List Event) : List camera_fb_t := evs.filterMap as_returned

/-- The buffer behind a successful call of `frame2jpg`. -/
def as_allocated : Event → Option Buf
  | .frame2jpg _ _ (some (b, _)) => some b
  | _ => none

/-- The buffers allocated by successful calls of `frame2jpg`, in order. -/
def allocated (evs : List Event) : List Buf := evs.filterMap as_allocated

/-- The buffer behind a call of `free`. -/
def as_freed : Event → Option Buf
  | .free b => some b
  | _ => none

/-- The buffers passed to `free`, in order. -/
def freed (evs : List Event) : List Buf := evs.filterMap as_freed

/-- Whether the call is a call of the encoder. -/
def is_frame2jpg : Event → Bool
  | .frame2jpg _ _ _ => true
  | _ => false

/-- What is owned at a point of a run: the captured frame not yet given back,
and the buffer allocated by the encoder and not yet freed. -/
structure Held where
  frame : Option camera_fb_t
  jpg : Option Buf
  deriving DecidableEq, Repr

/-- The effect of one call on what is owned; `none` when the call breaks the
discipline: a capture while a frame is held, a frame given back that is not the
one held, an allocation while a buffer is owned, or a `free` of anything but
the buffer owned, or while a frame is held. -/
def account_step (h : Held) : Event → Option Held
  | .esp_camera_fb_get (some fb) => if h.frame = none then some { h with frame := some fb } else none
  | .esp_camera_fb_return fb => if h.frame = some fb then some { h with frame := none } else none
  | .frame2jpg _ _ (some (b, _)) => if h.jpg = none then some { h with jpg := some b } else none
  | .free b => if h.jpg = some b ∧ h.frame = none then some { h with jpg := none } else none
  | _ => some h

/-- The calls are accounted one after the other. -/
def account : Held → List Event → Option Held
  | h, [] => some h
  | h, ev :: evs => (account_step h ev).bind (fun h1 => account h1 evs)


/-- The writes of a list up to and including the first one that returned zero. -/
def upto_first_zero : List (Bytes × Nat) → List (Bytes × Nat)
  | [] => []
  | x :: rest => if x.2 = 0 then [x] else x :: upto_first_zero rest

/-- The three writes of one frame, with the values the transport returns: the
boundary, the header formatted from the variables, the payload. -/
def frame_writes (e : IterEnv) (c : Locals) : List (Bytes × Nat) :=
  [(cstr _STREAM_BOUNDARY, e.written_boundary),
   ((format_part c).1.take (format_part c).2, e.written_header),
   (read_bytes c._jpg_buf c._jpg_buf_len, e.written_payload)]

/-- Every write of the list returned more than zero. -/
def all_written (ws : List (Bytes × Nat)) : Prop := ∀ x ∈ ws, 0 < x.2

/-- The list ends with a write that returned zero, the only one that did. -/
def ends_at_zero (ws : List (Bytes × Nat)) : Prop :=
  ∃ pre d, ws = pre ++ [(d, 0)] ∧ all_written pre

/-- The payload sent for a captured frame, as a buffer and a length: the
frame's own buffer when the frame is JPEG already, otherwise what the encoder
returned (nothing when it failed). -/
def payload_of (e : IterEnv) (fb : camera_fb_t) : Option (Buf × Nat) :=
  if fb.format = .PIXFORMAT_JPEG then some (fb.buf, fb.len) else e.jpg

/-- The calls of one failed capture. -/
def retry_events : List Event :=
  [.esp_camera_fb_get none, .log_e "Camera capture failed"]

/-- A frame as the wire sees it: payload bytes, length, capture timestamp. -/
structure WireFrame where
  payload : Bytes
  len : Nat
  timestamp : timeval
  deriving DecidableEq, Repr

/-- The turn captures a frame, sends it as `f` with three writes that all
return more than zero, and the numbers of `f` fit their C types. -/
def sends (e : IterEnv) (f : WireFrame) : Prop :=
  (∃ fb b, e.fb_get = some fb ∧ payload_of e fb = some (b, f.len)
      ∧ b.bytes.take f.len = f.payload ∧ fb.timestamp = f.timestamp)
    ∧ 0 < e.written_boundary ∧ 0 < e.written_header ∧ 0 < e.written_payload
    ∧ f.len < 2 ^ 32
    ∧ -2 ^ 31 ≤ f.timestamp.tv_sec ∧ f.timestamp.tv_sec < 2 ^ 31
    ∧ -2 ^ 31 ≤ f.timestamp.tv_usec ∧ f.timestamp.tv_usec < 2 ^ 31

/-- The three writes of one framed unit: boundary, header, payload. -/
def framed_unit (f : WireFrame) : List Bytes :=
  [cstr _STREAM_BOUNDARY,
   header_spec f.len f.timestamp.tv_sec f.timestamp.tv_usec,
   f.payload]

/-- The bytes passed to the transport writes, write by write. -/
def written_data (evs : List Event) : List Bytes := (writes evs).map Prod.fst

/-- The byte stream on the wire: the bytes of all the writes, concatenated. -/
def wire_bytes (evs : List Event) : Bytes := (written_data evs).flatten

/-- Whether the call is one that only the Session Manager and `set_cam_conf`
make. -/
def is_session_call : Event → Bool
  | .client_setTimeout _ => true
  | .client_connect _ _ _ => true
  | .client_stop => true
  | .delay _ => true
  | .esp_camera_sensor_get => true
  | .sensor_set _ _ => true
  | .log_i _ => true
  | .log_i_connecting _ _ => true
  | _ => false

/-- Line 100 does not `continue`: the turn goes on to the sending step. -/
def reaches_sending (e : IterEnv) (s : Locals) : Prop :=
  (capture e { s with res := ESP_OK }).1.res ≠ ESP_FAIL

instance (e : IterEnv) (s : Locals) : Decidable (reaches_sending e s) :=
  inferInstanceAs (Decidable ((capture e { s with res := ESP_OK }).1.res ≠ ESP_FAIL))

/-! ## Sample inputs -/

/-- A JPEG frame of 2048 bytes captured at (10, 500000). -/
def frame_2048 : camera_fb_t :=
  { buf := ⟨1073414144, List.replicate 2048 255⟩, len := 2048, format := .PIXFORMAT_JPEG,
    timestamp := ⟨10, 500000⟩ }

/-- A turn in which `frame_2048` is captured and every write is complete. -/
def turn_2048 : IterEnv :=
  { fb_get := some frame_2048, jpg := none, written_boundary := 36, written_header := 74,
    written_payload := 2048, fr_end := 1033000 }

/-- A turn in which the capture fails. -/
def turn_no_frame : IterEnv :=
  { fb_get := none, jpg := none, written_boundary := 0, written_header := 0,
    written_payload := 0, fr_end := 0 }

/-- The variables at the head of the first turn of a first call. -/
def at_entry : Locals := entry 0 ⟨1000000, ⟨0, 0⟩, [], []⟩

/-- A frame in a raw format, to be converted. -/
def frame_raw : camera_fb_t :=
  { buf := ⟨1073414144, [1, 2, 3, 4]⟩, len := 4, format := .PIXFORMAT_RGB565,
    timestamp := ⟨11, 250⟩ }

/-- A turn in which `frame_raw` is captured and the conversion fails. -/
def turn_encode_failed : IterEnv :=
  { fb_get := some frame_raw, jpg := none, written_boundary := 36, written_header := 70,
    written_payload := 4, fr_end := 1066000 }

/-- A turn in which `frame_2048` is captured and the header write returns zero. -/
def turn_header_lost : IterEnv :=
  { fb_get := some frame_2048, jpg := none, written_boundary := 36, written_header := 0,
    written_payload := 2048, fr_end := 1033000 }

/-- A connection that succeeds; the stream sends one frame and then a header
write returns zero. -/
def session_up : SessionEnv :=
  { connected := true, sensor_pixformat := .PIXFORMAT_JPEG, written_handshake := 32,
    last_frame := 0,
    stream := ⟨1000000, ⟨0, 0⟩, [], [turn_2048, turn_header_lost]⟩ }

/-- A connection attempt that fails. -/
def session_down : SessionEnv := { session_up with connected := false }

/-- The bytes of a JPEG file of 44 bytes: start of image, one comment segment
whose 36 bytes of text are those of the boundary marker, end of image. -/
def jpeg_with_marker : Bytes :=
  [0xff, 0xd8, 0xff, 0xfe, 0x00, 0x26] ++ cstr _STREAM_BOUNDARY ++ [0xff, 0xd9]

/-- A JPEG frame holding `jpeg_with_marker`. -/
def frame_marker : camera_fb_t :=
  { buf := ⟨1073414144, jpeg_with_marker⟩, len := 44, format := .PIXFORMAT_JPEG,
    timestamp := ⟨10, 500000⟩ }

/-- A turn in which `frame_marker` is captured and every write is complete. -/
def turn_marker : IterEnv :=
  { fb_get := some frame_marker, jpg := none, written_boundary := 36, written_header := 72,
    written_payload := 44, fr_end := 1033000 }

/-- The frame of `turn_marker` as the wire sees it. -/
def wire_marker : WireFrame :=
  { payload := jpeg_with_marker, len := 44, timestamp := ⟨10, 500000⟩ }

/-! ## Predicates on calls and bytes -/

/-- Whether the call writes the handshake token. -/
def is_handshake_write : Event → Bool
  | .client_write d _ => decide (d = _STREAM_HANDSHAKE)
  | _ => false

/-- Whether the call is one of `set_cam_conf`. -/
def is_sensor_call : Event → Bool
  | .esp_camera_sensor_get => true
  | .sensor_set _ _ => true
  | _ => false

/-- Whether the bytes start with the pattern. -/
def starts_with : Bytes → Bytes → Bool
  | [], _ => true
  | _ :: _, [] => false
  | p :: ps, b :: bs => p == b && starts_with ps bs

/-- The number of places of the bytes at which the pattern occurs. -/
def occurrences (pat : Bytes) : Bytes → Nat
  | [] => if starts_with pat [] then 1 else 0
  | b :: bs => (if starts_with pat (b :: bs) then 1 else 0) + occurrences pat bs

/-! ## Lemmas on the formatted header -/

theorem toDigitsCore_length_le (fuel : Nat) :
    ∀ (n k : Nat) (ds : List Char), 0 < k → n < 10 ^ k →
      (Nat.toDigitsCore 10 fuel n ds).length ≤ ds.length + k := by
  induction fuel with
  | zero => intro n k ds _ _; simp [Nat.toDigitsCore]
  | succ f ih =>
    intro n k ds hk hn
    simp only [Nat.toDigitsCore]
    split
    · simp; omega
    · rename_i h
      have hk2 : 2 ≤ k := by
        by_contra hlt
        have h1 : k = 1 := by omega
        subst h1
        simp at hn
        omega
      have hpow : 10 ^ k = 10 * 10 ^ (k - 1) := by
        rw [← pow_succ']
        congr 1
        omega
      have hdiv : n / 10 < 10 ^ (k - 1) := by
        apply Nat.div_lt_of_lt_mul
        rw [← hpow]
        exact hn
      have := ih (n / 10) (k - 1) (Nat.digitChar (n % 10) :: ds) (by omega) hdiv
      simp at this
      omega

theorem toDigits_length_le (n : Nat) (h : n < 10 ^ 10) : (Nat.toDigits 10 n).length ≤ 10 := by
  have := toDigitsCore_length_le (n + 1) n 10 [] (by decide) h
  simpa [Nat.toDigits] using this

theorem decimal_eq (n : Nat) : decimal n = Nat.toDigits 10 n := by
  simp [decimal, toString, Nat.repr, List.asString]

theorem decimal_int_eq (i : Int) :
    decimal_int i = (if i < 0 then ['-'] else []) ++ Nat.toDigits 10 i.natAbs := by
  cases i with
  | ofNat n =>
    have h : ¬ ((n : Int) < 0) := by omega
    simp [decimal_int, toString, Nat.repr, List.asString, h]
  | negSucc n =>
    have h : Int.negSucc n < 0 := Int.negSucc_lt_zero n
    simp [decimal_int, toString, Nat.repr, List.asString, h]

theorem as_unsigned_lt (a : printf_arg) : as_unsigned a < 10 ^ 10 := by
  cases a with
  | uint n => simp only [as_unsigned]; omega
  | int i => simp only [as_unsigned]; omega

theorem as_signed_natAbs_lt (a : printf_arg) : (as_signed a).natAbs < 10 ^ 10 := by
  cases a with
  | uint n => simp only [as_signed]; omega
  | int i => simp only [as_signed]; omega

theorem as_signed_int (i : Int) (h1 : -2 ^ 31 ≤ i) (h2 : i < 2 ^ 31) :
    as_signed (.int i) = i := by
  simp only [as_signed]; omega

theorem as_unsigned_uint (n : Nat) (h : n < 2 ^ 32) : as_unsigned (.uint n) = n := by
  simp only [as_unsigned]; omega

/-- What `printf` makes of `_STREAM_PART` and three arguments. -/
theorem vformat_STREAM_PART (a b c : printf_arg) :
    vformat .text _STREAM_PART.data [a, b, c] =
      "Content-Type: image/jpeg\r\nContent-Length: ".data
        ++ Nat.toDigits 10 (as_unsigned a)
        ++ "\r\nX-Timestamp: ".data
        ++ ((if as_signed b < 0 then ['-'] else []) ++ Nat.toDigits 10 (as_signed b).natAbs)
        ++ ".".data
        ++ fmt_number true 6 (decide (as_signed c < 0)) (Nat.toDigits 10 (as_signed c).natAbs)
        ++ "\r\n\r\n".data := by
  simp [vformat, _STREAM_PART, fmt_number]

theorem fmt_number_length (z : Bool) (w : Nat) (neg : Bool) (ds : List Char) :
    (fmt_number z w neg ds).length = max w ((if neg then 1 else 0) + ds.length) := by
  cases z <;> cases neg <;> simp [fmt_number] <;> omega

theorem vformat_STREAM_PART_length (a b c : printf_arg) :
    (vformat .text _STREAM_PART.data [a, b, c]).length ≤ 94 := by
  rw [vformat_STREAM_PART]
  have h1 := toDigits_length_le _ (as_unsigned_lt a)
  have h2 := toDigits_length_le _ (as_signed_natAbs_lt b)
  have h3 := toDigits_length_le _ (as_signed_natAbs_lt c)
  simp only [List.length_append, fmt_number_length]
  have e1 : "Content-Type: image/jpeg\r\nContent-Length: ".data.length = 42 := by decide
  have e2 : "\r\nX-Timestamp: ".data.length = 15 := by decide
  have e3 : ".".data.length = 1 := by decide
  have e4 : "\r\n\r\n".data.length = 4 := by decide
  rw [e1, e2, e3, e4]
  split <;> split <;> simp <;> omega

theorem fmt_zero6_eq (U : Int) :
    fmt_number true 6 (decide (U < 0)) (Nat.toDigits 10 U.natAbs) = zero_padded6 U := by
  by_cases h : U < 0
  · simp [fmt_number, zero_padded6, h, decimal_eq, List.leftpad]
    omega
  · simp [fmt_number, zero_padded6, h, decimal_eq, List.leftpad]

theorem vformat_STREAM_PART_spec (L : Nat) (S U : Int) (hL : L < 2 ^ 32)
    (hS1 : -2 ^ 31 ≤ S) (hS2 : S < 2 ^ 31) (hU1 : -2 ^ 31 ≤ U) (hU2 : U < 2 ^ 31) :
    (vformat .text _STREAM_PART.data [.uint L, .int S, .int U]).map Char.toNat
      = header_spec L S U := by
  rw [vformat_STREAM_PART, as_unsigned_uint L hL, as_signed_int S hS1 hS2,
    as_signed_int U hU1 hU2, fmt_zero6_eq, ← decimal_int_eq, ← decimal_eq]
  simp [header_spec, cstr]

/-- The header write gets the whole formatted text: `hlen` is below the size
given to `snprintf`. -/
theorem format_part_take (s : Locals) :
    (format_part s).1.take (format_part s).2 =
      (vformat .text _STREAM_PART.data
        [.uint s._jpg_buf_len, .int s._timestamp.tv_sec, .int s._timestamp.tv_usec]).map
        Char.toNat := by
  have h := vformat_STREAM_PART_length (.uint s._jpg_buf_len) (.int s._timestamp.tv_sec)
    (.int s._timestamp.tv_usec)
  simp only [format_part, snprintf]
  generalize vformat .text _STREAM_PART.data
    [.uint s._jpg_buf_len, .int s._timestamp.tv_sec, .int s._timestamp.tv_usec] = out at h
  have h1 : List.take (128 - 1) (List.map Char.toNat out) = List.map Char.toNat out :=
    List.take_of_length_le (by simp; omega)
  simp only [h1, if_neg (by decide : ¬ (128 = 0)), List.append_assoc]
  exact List.take_left' (by simp)

theorem format_part_hlen (s : Locals) : (format_part s).2 ≤ 94 := by
  have h := vformat_STREAM_PART_length (.uint s._jpg_buf_len) (.int s._timestamp.tv_sec)
    (.int s._timestamp.tv_usec)
  simpa [format_part, snprintf] using h


/-! ## Lemmas on the release discipline -/

theorem account_append (a b : List Event) :
    ∀ h, account h (a ++ b) = (account h a).bind (fun h1 => account h1 b) := by
  induction a with
  | nil => intro h; simp [account]
  | cons ev evs ih =>
    intro h
    simp only [List.cons_append, account]
    cases account_step h ev with
    | none => simp
    | some h1 => simp [ih]

/-! ## Lemmas on one turn of the loop -/

theorem release_locals (c : Locals) :
    (release c).1.fb = none ∧ (release c).1._jpg_buf = none := by
  unfold release
  rcases hfb : c.fb with _ | fb
  · rcases hb : c._jpg_buf with _ | b <;> simp [hfb, hb]
  · simp

theorem send_locals (e : IterEnv) (c : Locals) :
    (send e c).1.fb = c.fb ∧ (send e c).1._jpg_buf = c._jpg_buf
      ∧ (send e c).1._jpg_buf_len = c._jpg_buf_len := by
  unfold send
  by_cases h1 : 0 < e.written_boundary
  · by_cases h2 : 0 < e.written_header <;> simp [h1, h2]
  · simp [h1]

theorem finish_locals (e : IterEnv) (c : Locals) (w : Nat) :
    (finish e c w).1.fb = c.fb ∧ (finish e c w).1._jpg_buf = c._jpg_buf := by
  unfold finish
  by_cases h : w ≤ 0 <;> simp [h]

theorem transmit_locals (e : IterEnv) (c : Locals) :
    (transmit e c).locals.fb = none ∧ (transmit e c).locals._jpg_buf = none := by
  simp only [transmit]
  rw [(finish_locals _ _ _).1, (finish_locals _ _ _).2]
  exact release_locals _

theorem send_no_resource (e : IterEnv) (c : Locals) :
    (send e c).2.1.filterMap as_captured = [] ∧ (send e c).2.1.filterMap as_returned = []
      ∧ (send e c).2.1.filterMap as_allocated = [] ∧ (send e c).2.1.filterMap as_freed = []
      ∧ ∀ h, account h (send e c).2.1 = some h := by
  unfold send
  by_cases h1 : 0 < e.written_boundary
  · by_cases h2 : 0 < e.written_header <;>
      simp [h1, h2, as_captured, as_returned, as_allocated, as_freed, account, account_step]
  · simp [h1, as_captured, as_returned, as_allocated, as_freed, account, account_step]

theorem finish_no_resource (e : IterEnv) (c : Locals) (w : Nat) :
    (finish e c w).2.1.filterMap as_captured = [] ∧ (finish e c w).2.1.filterMap as_returned = []
      ∧ (finish e c w).2.1.filterMap as_allocated = []
      ∧ (finish e c w).2.1.filterMap as_freed = []
      ∧ ∀ h, account h (finish e c w).2.1 = some h := by
  unfold finish
  by_cases h : w ≤ 0 <;>
    simp [h, as_captured, as_returned, as_allocated, as_freed, account, account_step]

theorem release_events_congr (c d : Locals) (h1 : c.fb = d.fb) (h2 : c._jpg_buf = d._jpg_buf) :
    (release c).2 = (release d).2 := by
  unfold release
  rw [h1, h2]
  rcases d.fb with _ | fb
  · rcases d._jpg_buf with _ | b <;> simp
  · simp

theorem release_account (c : Locals) :
    account ⟨c.fb, if c.fb = none then c._jpg_buf else none⟩ (release c).2 = some ⟨none, none⟩
      ∧ (release c).2.filterMap as_captured = [] ∧ (release c).2.filterMap as_allocated = []
      ∧ (release c).2.filterMap as_returned = c.fb.toList
      ∧ (release c).2.filterMap as_freed = (if c.fb = none then c._jpg_buf.toList else []) := by
  unfold release
  rcases hfb : c.fb with _ | fb
  · rcases hb : c._jpg_buf with _ | b <;>
      simp [hfb, hb, account, account_step, as_captured, as_returned, as_allocated, as_freed]
  · simp [account, account_step, as_captured, as_returned, as_allocated, as_freed]

/-- Release discipline of lines 104-133, for any frame held in the variables. -/
theorem transmit_account (e : IterEnv) (c : Locals) :
    account ⟨c.fb, if c.fb = none then c._jpg_buf else none⟩ (transmit e c).events
        = some ⟨none, none⟩
      ∧ captured (transmit e c).events = [] ∧ allocated (transmit e c).events = []
      ∧ returned (transmit e c).events = c.fb.toList
      ∧ freed (transmit e c).events = (if c.fb = none then c._jpg_buf.toList else []) := by
  obtain ⟨hs1, hs2, hs3, hs4, hs5⟩ := send_no_resource e c
  have hl := send_locals e c
  obtain ⟨hf1, hf2, hf3, hf4, hf5⟩ := finish_no_resource e (release (send e c).1).1 (send e c).2.2
  have hr := release_account (send e c).1
  rw [hl.1, hl.2.1] at hr
  obtain ⟨hr1, hr2, hr3, hr4, hr5⟩ := hr
  simp [transmit, captured, allocated, returned, freed, List.filterMap_append, account_append,
    hs1, hs2, hs3, hs4, hs5, hf1, hf2, hf3, hf4, hf5, hr1, hr2, hr3, hr4, hr5]

/-- Release discipline of lines 79-98, entered with no converted buffer owned. -/
theorem capture_account (e : IterEnv) (s : Locals) (h0 : s.res = ESP_OK)
    (h2 : s._jpg_buf = none) :
    account ⟨none, none⟩ (capture e s).2
        = some ⟨(capture e s).1.fb,
            if (capture e s).1.fb = none then (capture e s).1._jpg_buf else none⟩
      ∧ captured (capture e s).2 = returned (capture e s).2 ++ (capture e s).1.fb.toList
      ∧ allocated (capture e s).2
          = (if (capture e s).1.fb = none then (capture e s).1._jpg_buf.toList else [])
      ∧ freed (capture e s).2 = []
      ∧ ((capture e s).1.res = ESP_FAIL →
          (capture e s).1.fb = none ∧ (capture e s).1._jpg_buf = none) := by
  rcases hg : e.fb_get with _ | fb
  · simp [capture, hg, ESP_FAIL, ESP_OK, account, account_step, h2, returned, captured,
      freed, allocated, as_returned, as_captured, as_freed, as_allocated]
  · by_cases hf : fb.format = .PIXFORMAT_JPEG
    · simp [capture, hg, hf, h0, ESP_FAIL, ESP_OK, account, account_step, h2, returned, captured,
        freed, allocated, as_returned, as_captured, as_freed, as_allocated]
    · rcases hj : e.jpg with _ | ⟨b, n⟩
      · simp [capture, hg, hf, hj, h0, ESP_FAIL, ESP_OK, account, account_step, h2, returned,
          captured, freed, allocated, as_returned, as_captured, as_freed, as_allocated]
      · simp [capture, hg, hf, hj, h0, ESP_FAIL, ESP_OK, account, account_step, h2, returned,
          captured, freed, allocated, as_returned, as_captured, as_freed, as_allocated]

/-- Release discipline of one turn of the loop. -/
theorem loop_body_account (e : IterEnv) (s : Locals) (h2 : s._jpg_buf = none) :
    account ⟨none, none⟩ (loop_body e s).events = some ⟨none, none⟩
    ∧ (loop_body e s).locals.fb = none ∧ (loop_body e s).locals._jpg_buf = none
    ∧ returned (loop_body e s).events = captured (loop_body e s).events
    ∧ freed (loop_body e s).events = allocated (loop_body e s).events := by
  obtain ⟨hc1, hc2, hc3, hc4, hc5⟩ := capture_account e { s with res := ESP_OK } rfl h2
  by_cases hres : (capture e { s with res := ESP_OK }).1.res = ESP_FAIL
  · obtain ⟨hfb, hbuf⟩ := hc5 hres
    simp only [loop_body, hres, if_true]
    rw [hfb] at hc1 hc2 hc3
    rw [hbuf] at hc1 hc3
    simp at hc1 hc2 hc3
    simp [hc1, hc2, hc3, hc4, hfb, hbuf]
  · obtain ⟨ht1, ht2, ht3, ht4, ht5⟩ := transmit_account e (capture e { s with res := ESP_OK }).1
    obtain ⟨hl1, hl2⟩ := transmit_locals e (capture e { s with res := ESP_OK }).1
    simp only [loop_body, hres, if_false]
    simp only [returned, captured, freed, allocated] at *
    simp [account_append, List.filterMap_append, hc1, hc2, hc3, hc4, ht1, ht2, ht3, ht4, ht5,
      hl1, hl2]

/-- Release discipline of the loop, entered with nothing owned. -/
theorem while_true_account (turns : List IterEnv) :
    ∀ s : Locals, s.fb = none → s._jpg_buf = none →
      account ⟨none, none⟩ (while_true turns s).events = some ⟨none, none⟩
      ∧ (while_true turns s).locals.fb = none ∧ (while_true turns s).locals._jpg_buf = none
      ∧ returned (while_true turns s).events = captured (while_true turns s).events
      ∧ freed (while_true turns s).events = allocated (while_true turns s).events := by
  induction turns with
  | nil => intro s h1 h2; simp [while_true, account, returned, captured, freed, allocated, h1, h2]
  | cons e es ih =>
    intro s h1 h2
    obtain ⟨hb1, hb2, hb3, hb4, hb5⟩ := loop_body_account e s h2
    simp only [while_true]
    cases hctl : (loop_body e s).ctl with
    | again =>
      obtain ⟨hi1, hi2, hi3, hi4, hi5⟩ := ih (loop_body e s).locals hb2 hb3
      simp only [returned, captured, freed, allocated] at *
      simp [account_append, List.filterMap_append, hb1, hb4, hb5, hi1, hi2, hi3, hi4, hi5]
    | leave =>
      simp [hb1, hb2, hb3, hb4, hb5]

/-! ## Lemmas on the writes -/

theorem send_writes (e : IterEnv) (c : Locals) :
    writes (send e c).2.1 = upto_first_zero (frame_writes e c)
      ∧ ((send e c).2.2 = 0 → ends_at_zero (writes (send e c).2.1))
      ∧ ((send e c).2.2 ≠ 0 →
          all_written (writes (send e c).2.1) ∧ writes (send e c).2.1 = frame_writes e c) := by
  unfold send
  by_cases h1 : e.written_boundary = 0
  · refine ⟨?_, ?_, ?_⟩
    · simp [h1, writes, as_write, upto_first_zero, frame_writes, strlen]
    · intro _
      refine ⟨[], cstr _STREAM_BOUNDARY, ?_, ?_⟩
      · simp [h1, writes, as_write, strlen]
      · simp [all_written]
    · simp [h1]
  · have p1 : 0 < e.written_boundary := Nat.pos_of_ne_zero h1
    by_cases h2 : e.written_header = 0
    · refine ⟨?_, ?_, ?_⟩
      · simp [h1, h2, p1, writes, as_write, upto_first_zero, frame_writes, strlen]
      · intro _
        refine ⟨[(cstr _STREAM_BOUNDARY, e.written_boundary)],
          (format_part c).1.take (format_part c).2, ?_, ?_⟩
        · simp [h2, p1, writes, as_write, strlen]
        · simp [all_written, p1]
      · simp [h2, p1]
    · have p2 : 0 < e.written_header := Nat.pos_of_ne_zero h2
      by_cases h3 : e.written_payload = 0
      · refine ⟨?_, ?_, ?_⟩
        · simp [h1, h2, h3, p1, p2, writes, as_write, upto_first_zero, frame_writes, strlen]
        · intro _
          refine ⟨[(cstr _STREAM_BOUNDARY, e.written_boundary),
            ((format_part c).1.take (format_part c).2, e.written_header)],
            read_bytes c._jpg_buf c._jpg_buf_len, ?_, ?_⟩
          · simp [h3, p1, p2, writes, as_write, strlen]
          · intro x hx
            simp at hx
            rcases hx with h | h <;> simp [h, p1, p2]
        · simp [h3, p1, p2]
      · have p3 : 0 < e.written_payload := Nat.pos_of_ne_zero h3
        refine ⟨?_, ?_, ?_⟩
        · simp [h1, h2, h3, p1, p2, writes, as_write, upto_first_zero, frame_writes, strlen]
        · simp [h3, p1, p2]
        · intro _
          refine ⟨?_, ?_⟩
          · intro x hx
            simp [p1, p2, writes, as_write] at hx
            rcases hx with h | h | h <;> simp [h, p1, p2, p3]
          · simp [p1, p2, writes, as_write, frame_writes, strlen]

theorem release_writes (c : Locals) : writes (release c).2 = [] := by
  unfold release
  rcases c.fb with _ | fb
  · rcases c._jpg_buf with _ | b <;> simp [writes, as_write]
  · simp [writes, as_write]

theorem finish_writes (e : IterEnv) (c : Locals) (w : Nat) :
    writes (finish e c w).2.1 = [] ∧ ((finish e c w).2.2 = .leave ↔ w = 0)
      ∧ ((finish e c w).2.2 = .leave → (finish e c w).1.res = ESP_FAIL) := by
  unfold finish
  by_cases h : w = 0
  · simp [h, writes, as_write]
  · simp [h, writes, as_write]

/-- The writes of lines 104-133 and the way the turn ends. -/
theorem transmit_writes (e : IterEnv) (c : Locals) :
    writes (transmit e c).events = upto_first_zero (frame_writes e c)
      ∧ ((transmit e c).ctl = .leave →
          ends_at_zero (writes (transmit e c).events) ∧ (transmit e c).locals.res = ESP_FAIL)
      ∧ ((transmit e c).ctl = .again →
          all_written (writes (transmit e c).events)
            ∧ writes (transmit e c).events = frame_writes e c) := by
  obtain ⟨hs1, hs2, hs3⟩ := send_writes e c
  have hr := release_writes (send e c).1
  obtain ⟨hf1, hf2, hf3⟩ := finish_writes e (release (send e c).1).1 (send e c).2.2
  have hw : writes (transmit e c).events = writes (send e c).2.1 := by
    simp only [writes] at hr hf1
    simp [transmit, writes, List.filterMap_append, hr, hf1]
  refine ⟨by rw [hw, hs1], ?_, ?_⟩
  · intro hl
    have hl2 : (finish e (release (send e c).1).1 (send e c).2.2).2.2 = .leave := hl
    rw [hw]
    exact ⟨hs2 (hf2.1 hl2), hf3 hl2⟩
  · intro ha
    have ha2 : (finish e (release (send e c).1).1 (send e c).2.2).2.2 = .again := ha
    have hne : (send e c).2.2 ≠ 0 := by
      intro h0
      rw [hf2.2 h0] at ha2
      exact Ctl.noConfusion ha2
    rw [hw]
    exact hs3 hne

theorem capture_writes (e : IterEnv) (s : Locals) : writes (capture e s).2 = [] := by
  unfold capture
  rcases e.fb_get with _ | fb
  · simp [writes, as_write]
  · by_cases hf : fb.format = .PIXFORMAT_JPEG
    · simp [hf, writes, as_write]
    · rcases e.jpg with _ | ⟨b, n⟩ <;> simp [hf, writes, as_write]

/-- The writes of one turn of the loop and the way it ends. -/
theorem loop_body_writes (e : IterEnv) (s : Locals) :
    ((capture e { s with res := ESP_OK }).1.res = ESP_FAIL →
        writes (loop_body e s).events = [] ∧ (loop_body e s).ctl = .again)
      ∧ ((capture e { s with res := ESP_OK }).1.res ≠ ESP_FAIL →
        writes (loop_body e s).events
          = upto_first_zero (frame_writes e (capture e { s with res := ESP_OK }).1))
      ∧ ((loop_body e s).ctl = .leave →
          ends_at_zero (writes (loop_body e s).events) ∧ (loop_body e s).locals.res = ESP_FAIL)
      ∧ ((loop_body e s).ctl = .again → all_written (writes (loop_body e s).events)) := by
  have hc := capture_writes e { s with res := ESP_OK }
  obtain ⟨ht1, ht2, ht3⟩ := transmit_writes e (capture e { s with res := ESP_OK }).1
  simp only [writes] at hc ht1 ht2 ht3
  by_cases hres : (capture e { s with res := ESP_OK }).1.res = ESP_FAIL
  · simp [loop_body, hres, writes, hc, all_written]
  · simp only [loop_body, hres, if_false, writes, List.filterMap_append, hc, List.nil_append]
    refine ⟨by simp, fun _ => ht1, ht2, fun h => (ht3 h).1⟩

/-- The writes of the loop: it returns exactly at a write that returned zero. -/
theorem while_true_writes (turns : List IterEnv) :
    ∀ s : Locals,
      ((while_true turns s).res = none → all_written (writes (while_true turns s).events))
      ∧ ((while_true turns s).res ≠ none →
          (while_true turns s).res = some ESP_FAIL
            ∧ ends_at_zero (writes (while_true turns s).events)) := by
  induction turns with
  | nil => intro s; simp [while_true, writes, all_written]
  | cons e es ih =>
    intro s
    obtain ⟨_, _, hl, ha⟩ := loop_body_writes e s
    simp only [while_true]
    cases hctl : (loop_body e s).ctl with
    | again =>
      obtain ⟨i1, i2⟩ := ih (loop_body e s).locals
      have ha2 := ha hctl
      simp only [writes, List.filterMap_append] at *
      constructor
      · intro hn
        have := i1 hn
        intro x hx
        rcases List.mem_append.1 hx with h | h
        · exact ha2 x h
        · exact this x h
      · intro hn
        obtain ⟨hr, pre, d, hpre, hall⟩ := i2 hn
        refine ⟨hr, List.filterMap as_write (loop_body e s).events ++ pre, d, ?_, ?_⟩
        · rw [hpre, List.append_assoc]
        · intro x hx
          rcases List.mem_append.1 hx with h | h
          · exact ha2 x h
          · exact hall x h
    | leave =>
      obtain ⟨hz, hres⟩ := hl hctl
      simp [hz, hres]

/-! ## Lemmas on the turns of a given kind -/

/-- A turn whose capture fails. -/
theorem loop_body_capture_failed (e : IterEnv) (s : Locals) (hg : e.fb_get = none) :
    (loop_body e s).events = retry_events ∧ (loop_body e s).ctl = .again := by
  simp [loop_body, capture, hg, ESP_FAIL, ESP_OK, retry_events]

/-- A turn whose conversion fails. -/
theorem loop_body_encode_failed (e : IterEnv) (s : Locals) (fb : camera_fb_t)
    (hg : e.fb_get = some fb) (hf : fb.format ≠ .PIXFORMAT_JPEG) (hj : e.jpg = none) :
    (loop_body e s).events =
        [.esp_camera_fb_get (some fb), .frame2jpg fb 80 none, .esp_camera_fb_return fb,
         .log_e "JPEG compression failed"]
      ∧ (loop_body e s).ctl = .again := by
  simp [loop_body, capture, hg, hf, hj, ESP_FAIL, ESP_OK]

/-- A turn that sends a JPEG frame with three successful writes. -/
theorem loop_body_jpeg_sent (e : IterEnv) (s : Locals) (fb : camera_fb_t)
    (hg : e.fb_get = some fb) (hf : fb.format = .PIXFORMAT_JPEG)
    (h1 : 0 < e.written_boundary) (h2 : 0 < e.written_header) (h3 : 0 < e.written_payload) :
    (loop_body e s).events =
        [.esp_camera_fb_get (some fb),
         .client_write (cstr _STREAM_BOUNDARY) e.written_boundary,
         .client_write
           ((vformat .text _STREAM_PART.data
             [.uint fb.len, .int fb.timestamp.tv_sec, .int fb.timestamp.tv_usec]).map Char.toNat)
           e.written_header,
         .client_write (fb.buf.bytes.take fb.len) e.written_payload,
         .esp_camera_fb_return fb,
         .esp_timer_get_time e.fr_end,
         .log_i_mjpg (fb.len % 2 ^ 32) (((e.fr_end - s.last_frame).tdiv 1000) % 2 ^ 32).toNat]
      ∧ (loop_body e s).ctl = .again := by
  have h3n : ¬ e.written_payload = 0 := by omega
  simp [loop_body, capture, transmit, send, release, finish, hg, hf, h1, h2, h3n, ESP_FAIL, ESP_OK,
    strlen, read_bytes, format_part_take]

/-- A turn that converts a frame and sends it with three successful writes. -/
theorem loop_body_encoded_sent (e : IterEnv) (s : Locals) (fb : camera_fb_t) (b : Buf) (n : Nat)
    (hg : e.fb_get = some fb) (hf : fb.format ≠ .PIXFORMAT_JPEG) (hj : e.jpg = some (b, n))
    (h1 : 0 < e.written_boundary) (h2 : 0 < e.written_header) (h3 : 0 < e.written_payload) :
    (loop_body e s).events =
        [.esp_camera_fb_get (some fb),
         .frame2jpg fb 80 (some (b, n)),
         .esp_camera_fb_return fb,
         .client_write (cstr _STREAM_BOUNDARY) e.written_boundary,
         .client_write
           ((vformat .text _STREAM_PART.data
             [.uint n, .int fb.timestamp.tv_sec, .int fb.timestamp.tv_usec]).map Char.toNat)
           e.written_header,
         .client_write (b.bytes.take n) e.written_payload,
         .free b,
         .esp_timer_get_time e.fr_end,
         .log_i_mjpg (n % 2 ^ 32) (((e.fr_end - s.last_frame).tdiv 1000) % 2 ^ 32).toNat]
      ∧ (loop_body e s).ctl = .again := by
  have h3n : ¬ e.written_payload = 0 := by omega
  simp [loop_body, capture, transmit, send, release, finish, hg, hf, hj, h1, h2, h3n, ESP_FAIL,
    ESP_OK, strlen, read_bytes, format_part_take]

/-! ## Lemmas on the loop -/

theorem while_true_again (e : IterEnv) (es : List IterEnv) (s : Locals)
    (h : (loop_body e s).ctl = .again) :
    (while_true (e :: es) s).res = (while_true es (loop_body e s).locals).res
      ∧ (while_true (e :: es) s).events
          = (loop_body e s).events ++ (while_true es (loop_body e s).locals).events := by
  simp [while_true, h]

/-- Failed captures only add their own calls to the run. -/
theorem while_true_retry (rest : List IterEnv) (fails : List IterEnv) :
    ∀ s : Locals, (∀ e ∈ fails, e.fb_get = none) →
      ∃ s1 : Locals,
        (while_true (fails ++ rest) s).res = (while_true rest s1).res
        ∧ (while_true (fails ++ rest) s).events
            = (List.replicate fails.length retry_events).flatten ++ (while_true rest s1).events := by
  induction fails with
  | nil => intro s _; exact ⟨s, by simp⟩
  | cons e es ih =>
    intro s hf
    obtain ⟨hev, hctl⟩ := loop_body_capture_failed e s (hf e (by simp))
    obtain ⟨s1, h1, h2⟩ := ih (loop_body e s).locals (fun x hx => hf x (by simp [hx]))
    obtain ⟨w1, w2⟩ := while_true_again e (es ++ rest) s hctl
    refine ⟨s1, ?_, ?_⟩
    · rw [List.cons_append, w1, h1]
    · rw [List.cons_append, w2, h2, hev]
      simp [List.replicate_succ]

/-- A turn that sends a frame writes its framed unit. -/
theorem loop_body_sends (e : IterEnv) (s : Locals) (f : WireFrame) (h : sends e f) :
    written_data (loop_body e s).events = framed_unit f
      ∧ (loop_body e s).ctl = .again := by
  obtain ⟨⟨fb, b, hg, hp, hb, hts⟩, h1, h2, h3, hL, hS1, hS2, hU1, hU2⟩ := h
  rw [← hts] at hS1 hS2 hU1 hU2
  have hspec := vformat_STREAM_PART_spec f.len fb.timestamp.tv_sec fb.timestamp.tv_usec hL hS1 hS2
    hU1 hU2
  by_cases hf : fb.format = .PIXFORMAT_JPEG
  · simp only [payload_of, hf, if_true, Option.some.injEq, Prod.mk.injEq] at hp
    obtain ⟨hp1, hp2⟩ := hp
    obtain ⟨hev, hctl⟩ := loop_body_jpeg_sent e s fb hg hf h1 h2 h3
    rw [hp1, hp2, hspec, hb] at hev
    refine ⟨?_, hctl⟩
    rw [hev]
    simp [written_data, writes, as_write, framed_unit, hts]
  · simp only [payload_of, hf, if_false] at hp
    obtain ⟨hev, hctl⟩ := loop_body_encoded_sent e s fb b f.len hg hf hp h1 h2 h3
    rw [hspec, hb] at hev
    refine ⟨?_, hctl⟩
    rw [hev]
    simp [written_data, writes, as_write, framed_unit, hts]

/-- Frames that are all sent give the concatenation of their framed units. -/
theorem while_true_sends (turns : List IterEnv) :
    ∀ (frames : List WireFrame) (s : Locals), List.Forall₂ sends turns frames →
      (while_true turns s).res = none
      ∧ written_data (while_true turns s).events = frames.flatMap framed_unit := by
  induction turns with
  | nil =>
    intro frames s h
    cases h
    simp [while_true, written_data, writes]
  | cons e es ih =>
    intro frames s h
    cases h with
    | cons hhead htail =>
      rename_i f fs
      obtain ⟨hw, hctl⟩ := loop_body_sends e s f hhead
      obtain ⟨w1, w2⟩ := while_true_again e es s hctl
      obtain ⟨i1, i2⟩ := ih fs (loop_body e s).locals htail
      refine ⟨by rw [w1, i1], ?_⟩
      simp only [written_data, writes] at hw i2 ⊢
      rw [w2]
      simp [List.filterMap_append, hw, i2]

/-! ## Lemmas on the calls of the Stream Driver -/

theorem send_cam_stream_eq (last_frame : Int) (env : StreamEnv) :
    (send_cam_stream last_frame env).res = (while_true env.turns (entry last_frame env)).res
      ∧ (send_cam_stream last_frame env).locals
          = (while_true env.turns (entry last_frame env)).locals
      ∧ (send_cam_stream last_frame env).events
          = (if last_frame = 0 then [Event.esp_timer_get_time env.timer0] else [])
              ++ (while_true env.turns (entry last_frame env)).events := by
  unfold send_cam_stream
  by_cases h : last_frame = 0 <;> simp [h]

theorem capture_no_session_call (e : IterEnv) (s : Locals) :
    ∀ ev ∈ (capture e s).2, is_session_call ev = false := by
  unfold capture
  rcases e.fb_get with _ | fb
  · simp [is_session_call]
  · by_cases hf : fb.format = .PIXFORMAT_JPEG
    · simp [hf, is_session_call]
    · rcases e.jpg with _ | ⟨b, n⟩ <;> simp [hf, is_session_call]

theorem send_no_session_call (e : IterEnv) (c : Locals) :
    ∀ ev ∈ (send e c).2.1, is_session_call ev = false := by
  unfold send
  by_cases h1 : 0 < e.written_boundary
  · by_cases h2 : 0 < e.written_header <;> simp [h1, h2, is_session_call]
  · simp [h1, is_session_call]

theorem release_no_session_call (c : Locals) :
    ∀ ev ∈ (release c).2, is_session_call ev = false := by
  unfold release
  rcases c.fb with _ | fb
  · rcases c._jpg_buf with _ | b <;> simp [is_session_call]
  · simp [is_session_call]

theorem finish_no_session_call (e : IterEnv) (c : Locals) (w : Nat) :
    ∀ ev ∈ (finish e c w).2.1, is_session_call ev = false := by
  unfold finish
  by_cases h : w ≤ 0 <;> simp [h, is_session_call]

theorem loop_body_no_session_call (e : IterEnv) (s : Locals) :
    ∀ ev ∈ (loop_body e s).events, is_session_call ev = false := by
  intro ev h
  unfold loop_body at h
  by_cases hres : (capture e { s with res := ESP_OK }).1.res = ESP_FAIL
  · simp only [hres, if_true] at h
    exact capture_no_session_call _ _ ev h
  · simp only [hres, if_false, transmit, List.mem_append] at h
    rcases h with h | (h | h) | h
    · exact capture_no_session_call _ _ ev h
    · exact send_no_session_call _ _ ev h
    · exact release_no_session_call _ ev h
    · exact finish_no_session_call _ _ _ ev h

theorem while_true_no_session_call (turns : List IterEnv) :
    ∀ (s : Locals), ∀ ev ∈ (while_true turns s).events, is_session_call ev = false := by
  induction turns with
  | nil => intro s ev h; simp [while_true] at h
  | cons e es ih =>
    intro s ev h
    simp only [while_true] at h
    cases hctl : (loop_body e s).ctl with
    | again =>
      simp only [hctl] at h
      rcases List.mem_append.1 h with h | h
      · exact loop_body_no_session_call e s ev h
      · exact ih _ ev h
    | leave =>
      simp only [hctl] at h
      exact loop_body_no_session_call e s ev h

theorem send_cam_stream_no_session_call (last_frame : Int) (env : StreamEnv) :
    ∀ ev ∈ (send_cam_stream last_frame env).events, is_session_call ev = false := by
  intro ev h
  rw [(send_cam_stream_eq last_frame env).2.2] at h
  rcases List.mem_append.1 h with h | h
  · by_cases h0 : last_frame = 0
    · simp [h0] at h
      simp [h, is_session_call]
    · simp [h0] at h
  · exact while_true_no_session_call _ _ ev h

/-! ## Lemmas on zero writes -/

theorem all_written_no_zero (ws : List (Bytes × Nat)) (h : all_written ws) :
    ¬ ∃ d, (d, 0) ∈ ws := by
  rintro ⟨d, hd⟩
  have := h (d, 0) hd
  simp at this

theorem all_written_dropLast (ws : List (Bytes × Nat)) (h : all_written ws) :
    ∀ x ∈ ws.dropLast, 0 < x.2 :=
  fun x hx => h x (List.dropLast_subset ws hx)

theorem ends_at_zero_mem (ws : List (Bytes × Nat)) (h : ends_at_zero ws) :
    (∃ d, (d, 0) ∈ ws) ∧ ∀ x ∈ ws.dropLast, 0 < x.2 := by
  obtain ⟨pre, d, hws, hall⟩ := h
  subst hws
  refine ⟨⟨d, by simp⟩, ?_⟩
  intro x hx
  rw [List.dropLast_concat] at hx
  exact hall x hx

theorem reaches_sending_iff (e : IterEnv) (s : Locals) :
    reaches_sending e s ↔ ∃ fb, e.fb_get = some fb ∧ payload_of e fb ≠ none := by
  unfold reaches_sending capture payload_of
  rcases hg : e.fb_get with _ | fb
  · simp [ESP_FAIL]
  · by_cases hf : fb.format = .PIXFORMAT_JPEG
    · simp [hf, ESP_FAIL, ESP_OK]
    · rcases hj : e.jpg with _ | ⟨b, n⟩ <;> simp [hf, ESP_FAIL, ESP_OK]

/-! ## Lemmas on the Session Manager -/

theorem set_cam_conf_writes (p : pixformat_t) :
    writes (set_cam_conf p) = [] ∧ Event.client_stop ∉ set_cam_conf p
      ∧ (∀ ms, Event.delay ms ∉ set_cam_conf p)
      ∧ ∃ rest, set_cam_conf p = Event.esp_camera_sensor_get :: rest
          ∧ ∀ ev ∈ rest, is_handshake_write ev = false := by
  unfold set_cam_conf
  by_cases h : p = .PIXFORMAT_JPEG <;> simp [h, writes, as_write, is_handshake_write]

/-- The calls of `sendCameraFrames` when the connection is made. -/
theorem sendCameraFrames_connected (server : IPAddress) (port : Nat) (env : SessionEnv)
    (hc : env.connected = true) :
    (sendCameraFrames server port env).events =
        [.client_setTimeout 5, .log_i_connecting server port, .client_connect server port true,
         .client_setTimeout 0, .log_i "Sending camera stream"]
        ++ set_cam_conf env.sensor_pixformat
        ++ [.client_write _STREAM_HANDSHAKE env.written_handshake]
        ++ (send_cam_stream env.last_frame env.stream).events
        ++ (if (send_cam_stream env.last_frame env.stream).res ≠ none
            then [.client_stop, .delay 1000] else [])
      ∧ ((sendCameraFrames server port env).returned = true
          ↔ (send_cam_stream env.last_frame env.stream).res ≠ none) := by
  have hs : _STREAM_HANDSHAKE.take sizeof_STREAM_HANDSHAKE = _STREAM_HANDSHAKE := by decide
  unfold sendCameraFrames
  rcases hr : (send_cam_stream env.last_frame env.stream).res with _ | r <;> simp [hc, hr, hs]

/-- The sensor is configured before the handshake is written. -/
theorem sendCameraFrames_order (server : IPAddress) (port : Nat) (env : SessionEnv)
    (hc : env.connected = true) :
    (sendCameraFrames server port env).events.findIdx is_sensor_call = 5
      ∧ 5 < (sendCameraFrames server port env).events.findIdx is_handshake_write := by
  obtain ⟨rest, hrest, _⟩ := (set_cam_conf_writes env.sensor_pixformat).2.2.2
  rw [(sendCameraFrames_connected server port env hc).1, hrest]
  simp [List.findIdx_cons, is_sensor_call, is_handshake_write]

/-! ## A sample frame -/

theorem sends_turn_marker : sends turn_marker wire_marker :=
  ⟨⟨frame_marker, frame_marker.buf, rfl, rfl, by decide, rfl⟩, by decide⟩

/-! ## Theorems of the claims -/

/-- C1: in a turn of the loop of `send_cam_stream` that captures a frame which
is JPEG already, with buffer of length `L` and timestamp `(S, U)`, and in which
the three writes return more than zero, the transport writes are exactly the
boundary literal, the header formatted from `(L, S, U)` and the `L` bytes of the
buffer, in this order; `frame2jpg` is not called, and the loop goes on to the
next capture. -/
theorem C1_jpeg_frame_turn (e : IterEnv) (s : Locals) (fb : camera_fb_t)
    (hg : e.fb_get = some fb) (hf : fb.format = .PIXFORMAT_JPEG)
    (hlen : fb.buf.bytes.length = fb.len) (hL : fb.len < 2 ^ 32)
    (hS1 : -2 ^ 31 ≤ fb.timestamp.tv_sec) (hS2 : fb.timestamp.tv_sec < 2 ^ 31)
    (hU1 : -2 ^ 31 ≤ fb.timestamp.tv_usec) (hU2 : fb.timestamp.tv_usec < 2 ^ 31)
    (h1 : 0 < e.written_boundary) (h2 : 0 < e.written_header) (h3 : 0 < e.written_payload) :
    (loop_body e s).events =
        [.esp_camera_fb_get (some fb),
         .client_write (cstr "\r\n--123456789000000000000987654321\r\n") e.written_boundary,
         .client_write (header_spec fb.len fb.timestamp.tv_sec fb.timestamp.tv_usec)
           e.written_header,
         .client_write fb.buf.bytes e.written_payload,
         .esp_camera_fb_return fb,
         .esp_timer_get_time e.fr_end,
         .log_i_mjpg (fb.len % 2 ^ 32) (((e.fr_end - s.last_frame).tdiv 1000) % 2 ^ 32).toNat]
      ∧ writes (loop_body e s).events =
        [(cstr "\r\n--123456789000000000000987654321\r\n", e.written_boundary),
         (header_spec fb.len fb.timestamp.tv_sec fb.timestamp.tv_usec, e.written_header),
         (fb.buf.bytes, e.written_payload)]
      ∧ (loop_body e s).events.filter is_frame2jpg = []
      ∧ (loop_body e s).ctl = .again
      ∧ ∀ rest, (while_true (e :: rest) s).events
          = (loop_body e s).events ++ (while_true rest (loop_body e s).locals).events := by
  obtain ⟨hev, hctl⟩ := loop_body_jpeg_sent e s fb hg hf h1 h2 h3
  have hb : cstr _STREAM_BOUNDARY = cstr "\r\n--123456789000000000000987654321\r\n" := by decide
  rw [vformat_STREAM_PART_spec fb.len fb.timestamp.tv_sec fb.timestamp.tv_usec hL hS1 hS2 hU1 hU2,
    ← hlen, List.take_length, hb] at hev
  rw [← hlen]
  refine ⟨hev, ?_, ?_, hctl, fun rest => (while_true_again e rest s hctl).2⟩
  · rw [hev]; simp [writes, as_write]
  · rw [hev]; simp [is_frame2jpg]

/-- Witness of C1: a frame of 2048 bytes captured at (10, 500000). -/
theorem C1_jpeg_frame_turn_witness :
    writes (loop_body turn_2048 at_entry).events =
        [(cstr "\r\n--123456789000000000000987654321\r\n", 36),
         (cstr "Content-Type: image/jpeg\r\nContent-Length: 2048\r\nX-Timestamp: 10.500000\r\n\r\n",
           74),
         (List.replicate 2048 255, 2048)]
      ∧ (loop_body turn_2048 at_entry).events.filter is_frame2jpg = []
      ∧ (loop_body turn_2048 at_entry).ctl = .again := by
  have h := C1_jpeg_frame_turn turn_2048 at_entry frame_2048 rfl rfl (List.length_replicate 2048 255)
    (by decide) (by decide) (by decide) (by decide) (by decide) (by decide) (by decide) (by decide)
  have hh : header_spec 2048 10 500000
      = cstr "Content-Type: image/jpeg\r\nContent-Length: 2048\r\nX-Timestamp: 10.500000\r\n\r\n" := by
    rfl
  refine ⟨?_, h.2.2.1, h.2.2.2.1⟩
  rw [h.2.1, ← hh]
  rfl

/-- C2: for a content length `L` below 2^32 and timestamp seconds `S` and
microseconds `U` in the signed 32-bit range, the bytes passed to the header
write are the header of the specification,
`Content-Type: image/jpeg\r\nContent-Length: {L}\r\nX-Timestamp: {S}.{U:06d}\r\n\r\n`,
and `hlen` is their number, which is at most 127, below the 128 bytes given to
`snprintf`. -/
theorem C2_header_format (s : Locals) (hL : s._jpg_buf_len < 2 ^ 32)
    (hS1 : -2 ^ 31 ≤ s._timestamp.tv_sec) (hS2 : s._timestamp.tv_sec < 2 ^ 31)
    (hU1 : -2 ^ 31 ≤ s._timestamp.tv_usec) (hU2 : s._timestamp.tv_usec < 2 ^ 31) :
    (format_part s).1.take (format_part s).2
        = header_spec s._jpg_buf_len s._timestamp.tv_sec s._timestamp.tv_usec
      ∧ (format_part s).2
        = (header_spec s._jpg_buf_len s._timestamp.tv_sec s._timestamp.tv_usec).length
      ∧ (format_part s).2 ≤ 127
      ∧ ∀ e : IterEnv, 0 < e.written_boundary →
          (writes (send e s).2.1)[1]?
            = some (header_spec s._jpg_buf_len s._timestamp.tv_sec s._timestamp.tv_usec,
                e.written_header) := by
  have hspec := vformat_STREAM_PART_spec s._jpg_buf_len s._timestamp.tv_sec s._timestamp.tv_usec
    hL hS1 hS2 hU1 hU2
  have htake := format_part_take s
  rw [hspec] at htake
  have hlen := format_part_hlen s
  refine ⟨htake, ?_, by omega, ?_⟩
  · rw [← hspec]
    simp [format_part, snprintf]
  · intro e h1
    unfold send
    by_cases h2 : 0 < e.written_header <;> simp [h1, h2, writes, as_write, htake]

/-- Witness of C2: length 2048 and timestamp (10, 500000). -/
theorem C2_header_format_witness :
    (format_part { at_entry with _jpg_buf_len := 2048, _timestamp := ⟨10, 500000⟩ }).1.take
        (format_part { at_entry with _jpg_buf_len := 2048, _timestamp := ⟨10, 500000⟩ }).2
      = cstr "Content-Type: image/jpeg\r\nContent-Length: 2048\r\nX-Timestamp: 10.500000\r\n\r\n"
    ∧ (format_part { at_entry with _jpg_buf_len := 2048, _timestamp := ⟨10, 500000⟩ }).2 ≤ 127 := by
  have h := C2_header_format { at_entry with _jpg_buf_len := 2048, _timestamp := ⟨10, 500000⟩ }
    (by decide) (by decide) (by decide) (by decide) (by decide)
  have hh : header_spec 2048 10 500000
      = cstr "Content-Type: image/jpeg\r\nContent-Length: 2048\r\nX-Timestamp: 10.500000\r\n\r\n" := by
    rfl
  exact ⟨h.1.trans hh, h.2.2.1⟩

/-- C3: in every run of `send_cam_stream`, whatever the captures, conversions
and writes give and however many turns are observed (the exit after a failed
write included), the calls respect the release discipline: each captured frame
is given back once before the next capture, each buffer allocated by `frame2jpg`
is freed once, `free` gets nothing but such a buffer; the frames given back are
the frames captured, the buffers freed are the buffers allocated, and `fb` and
`_jpg_buf` are `NULL` at the head of the loop. A turn with a JPEG frame gives
the frame back and frees nothing. -/
theorem C3_release_exactly_once (last_frame : Int) (env : StreamEnv) :
    account ⟨none, none⟩ (send_cam_stream last_frame env).events = some ⟨none, none⟩
      ∧ returned (send_cam_stream last_frame env).events
          = captured (send_cam_stream last_frame env).events
      ∧ (returned (send_cam_stream last_frame env).events).length
          = (captured (send_cam_stream last_frame env).events).length
      ∧ freed (send_cam_stream last_frame env).events
          = allocated (send_cam_stream last_frame env).events
      ∧ (send_cam_stream last_frame env).locals.fb = none
      ∧ (send_cam_stream last_frame env).locals._jpg_buf = none
      ∧ ∀ (e : IterEnv) (s : Locals) (fb : camera_fb_t),
          e.fb_get = some fb → fb.format = .PIXFORMAT_JPEG →
            returned (loop_body e s).events = [fb] ∧ freed (loop_body e s).events = [] := by
  obtain ⟨e1, e2, e3⟩ := send_cam_stream_eq last_frame env
  obtain ⟨h1, h2, h3, h4, h5⟩ :=
    while_true_account env.turns (entry last_frame env) (by simp [entry]) (by simp [entry])
  have hacc : account ⟨none, none⟩ (send_cam_stream last_frame env).events
      = some ⟨none, none⟩ := by
    rw [e3, account_append]
    by_cases h0 : last_frame = 0
    · subst h0; simp [account, account_step, h1]
    · simp [h0, account, account_step, h1]
  have hret : returned (send_cam_stream last_frame env).events
      = captured (send_cam_stream last_frame env).events := by
    simp only [returned, captured] at h4 ⊢
    rw [e3]
    by_cases h0 : last_frame = 0
    · subst h0; simp [List.filterMap_append, as_returned, as_captured, h4]
    · simp [h0, List.filterMap_append, as_returned, as_captured, h4]
  have hfree : freed (send_cam_stream last_frame env).events
      = allocated (send_cam_stream last_frame env).events := by
    simp only [freed, allocated] at h5 ⊢
    rw [e3]
    by_cases h0 : last_frame = 0
    · subst h0; simp [List.filterMap_append, as_freed, as_allocated, h5]
    · simp [h0, List.filterMap_append, as_freed, as_allocated, h5]
  refine ⟨hacc, hret, by rw [hret], hfree, by rw [e2]; exact h2, by rw [e2]; exact h3, ?_⟩
  intro e s fb hg hf
  obtain ⟨t1, t2, t3, t4, t5⟩ := transmit_account e (capture e { s with res := ESP_OK }).1
  simp only [returned, captured, freed, allocated] at t4 t5 ⊢
  simp [loop_body, capture, hg, hf, ESP_OK, ESP_FAIL, List.filterMap_append, as_returned,
    as_freed] at t4 t5 ⊢
  exact ⟨t4, t5⟩

/-- Witness of C3: a run of a failed capture, a failed conversion and a frame
whose header write returns nothing. -/
theorem C3_release_exactly_once_witness :
    account ⟨none, none⟩
        (send_cam_stream 0
          ⟨1000000, ⟨0, 0⟩, [], [turn_no_frame, turn_encode_failed, turn_header_lost]⟩).events
      = some ⟨none, none⟩
    ∧ returned (loop_body turn_2048 at_entry).events = [frame_2048]
    ∧ freed (loop_body turn_2048 at_entry).events = [] :=
  ⟨(C3_release_exactly_once 0
      ⟨1000000, ⟨0, 0⟩, [], [turn_no_frame, turn_encode_failed, turn_header_lost]⟩).1,
    ((C3_release_exactly_once 0 ⟨0, ⟨0, 0⟩, [], []⟩).2.2.2.2.2.2
      turn_2048 at_entry frame_2048 rfl rfl).1,
    ((C3_release_exactly_once 0 ⟨0, ⟨0, 0⟩, [], []⟩).2.2.2.2.2.2
      turn_2048 at_entry frame_2048 rfl rfl).2⟩

/-- C6: in a turn that captures a frame which is not JPEG and in which
`frame2jpg` fails, the calls are the capture, the conversion, one
`esp_camera_fb_return` of the captured frame and a log line: no transport
write, no `free`; the loop goes on to the next turn without returning. -/
theorem C6_encode_failure (e : IterEnv) (s : Locals) (fb : camera_fb_t)
    (hg : e.fb_get = some fb) (hf : fb.format ≠ .PIXFORMAT_JPEG) (hj : e.jpg = none) :
    (loop_body e s).events =
        [.esp_camera_fb_get (some fb), .frame2jpg fb 80 none, .esp_camera_fb_return fb,
         .log_e "JPEG compression failed"]
      ∧ returned (loop_body e s).events = [fb]
      ∧ writes (loop_body e s).events = []
      ∧ freed (loop_body e s).events = []
      ∧ (loop_body e s).ctl = .again
      ∧ ∀ rest,
          (while_true (e :: rest) s).res = (while_true rest (loop_body e s).locals).res
          ∧ (while_true (e :: rest) s).events
              = (loop_body e s).events ++ (while_true rest (loop_body e s).locals).events := by
  obtain ⟨hev, hctl⟩ := loop_body_encode_failed e s fb hg hf hj
  refine ⟨hev, ?_, ?_, ?_, hctl, fun rest => while_true_again e rest s hctl⟩
  · rw [hev]; simp [returned, as_returned]
  · rw [hev]; simp [writes, as_write]
  · rw [hev]; simp [freed, as_freed]

/-- Witness of C6: a raw frame whose conversion fails. -/
theorem C6_encode_failure_witness :
    (loop_body turn_encode_failed at_entry).events =
        [.esp_camera_fb_get (some frame_raw), .frame2jpg frame_raw 80 none,
         .esp_camera_fb_return frame_raw, .log_e "JPEG compression failed"]
      ∧ (loop_body turn_encode_failed at_entry).ctl = .again :=
  ⟨(C6_encode_failure turn_encode_failed at_entry frame_raw rfl (by decide) rfl).1,
    (C6_encode_failure turn_encode_failed at_entry frame_raw rfl (by decide) rfl).2.2.2.2.1⟩

/-- C4: a turn of the loop reaches the sending step exactly when a frame was
captured and a payload exists; its transport writes are then the writes
boundary, header, payload up to and including the first one that returns zero,
and the turn leaves the loop exactly when one of its writes returned zero.
`send_cam_stream` returns exactly when a write returned zero, the value
returned is then `ESP_FAIL` and never `ESP_OK`, and every write but the last
one of a run returned more than zero; a turn that does not reach the sending
step writes nothing and goes on to the next turn. -/
theorem C4_write_short_circuit (last_frame : Int) (env : StreamEnv) (e : IterEnv) (s : Locals) :
    (reaches_sending e s ↔ ∃ fb, e.fb_get = some fb ∧ payload_of e fb ≠ none)
      ∧ (reaches_sending e s →
          writes (loop_body e s).events
            = upto_first_zero (frame_writes e (capture e { s with res := ESP_OK }).1))
      ∧ (¬ reaches_sending e s →
          writes (loop_body e s).events = [] ∧ (loop_body e s).ctl = .again)
      ∧ ((loop_body e s).ctl = .leave ↔ ∃ d, (d, 0) ∈ writes (loop_body e s).events)
      ∧ ((send_cam_stream last_frame env).res ≠ none
          ↔ ∃ d, (d, 0) ∈ writes (send_cam_stream last_frame env).events)
      ∧ ((send_cam_stream last_frame env).res ≠ none
          → (send_cam_stream last_frame env).res = some ESP_FAIL)
      ∧ (send_cam_stream last_frame env).res ≠ some ESP_OK
      ∧ ∀ x ∈ (writes (send_cam_stream last_frame env).events).dropLast, 0 < x.2 := by
  obtain ⟨b1, b2, b3, b4⟩ := loop_body_writes e s
  obtain ⟨e1, _, e3⟩ := send_cam_stream_eq last_frame env
  obtain ⟨l1, l2⟩ := while_true_writes env.turns (entry last_frame env)
  have hw : writes (send_cam_stream last_frame env).events
      = writes (while_true env.turns (entry last_frame env)).events := by
    rw [e3]
    by_cases h0 : last_frame = 0
    · subst h0; simp [writes, as_write]
    · simp [h0, writes]
  rw [hw, e1]
  refine ⟨reaches_sending_iff e s, b2, fun h => b1 (not_not.1 h), ?_, ?_, fun h => (l2 h).1, ?_, ?_⟩
  · constructor
    · intro h
      exact (ends_at_zero_mem _ (b3 h).1).1
    · intro h
      cases hctl : (loop_body e s).ctl with
      | leave => rfl
      | again => exact absurd h (all_written_no_zero _ (b4 hctl))
  · constructor
    · intro h
      exact (ends_at_zero_mem _ (l2 h).2).1
    · intro h hn
      exact all_written_no_zero _ (l1 hn) h
  · intro h
    have h2 := (l2 (by rw [h]; simp)).1
    rw [h] at h2
    simp [ESP_OK, ESP_FAIL] at h2
  · by_cases hn : (while_true env.turns (entry last_frame env)).res = none
    · exact all_written_dropLast _ (l1 hn)
    · exact (ends_at_zero_mem _ (l2 hn).2).2

/-- Witness of C4: the header write of a frame returns zero, the payload is not
written and the function returns `ESP_FAIL`. -/
theorem C4_write_short_circuit_witness :
    writes (loop_body turn_header_lost at_entry).events
        = upto_first_zero
            (frame_writes turn_header_lost
              (capture turn_header_lost { at_entry with res := ESP_OK }).1)
      ∧ (send_cam_stream 0 ⟨1000000, ⟨0, 0⟩, [], [turn_no_frame, turn_header_lost, turn_2048]⟩).res
        = some ESP_FAIL :=
  ⟨(C4_write_short_circuit 0 ⟨0, ⟨0, 0⟩, [], []⟩ turn_header_lost at_entry).2.1 (by decide),
    (C4_write_short_circuit 0 ⟨1000000, ⟨0, 0⟩, [], [turn_no_frame, turn_header_lost, turn_2048]⟩
      turn_no_frame at_entry).2.2.2.2.2.1 (by decide)⟩

/-- C8: when `esp_camera_fb_get` fails `k` times in a row and then gives a
frame, the calls of `send_cam_stream` during the `k` failed turns are only the
`k` failed captures with their log lines (no frame given back, no `free`, no
conversion, no write); the function does not return, and the next turn sends
the captured frame: boundary, header, payload. -/
theorem C8_capture_retry (k : Nat) (last_frame : Int) (env : StreamEnv)
    (fails : List IterEnv) (good : IterEnv) (fb : camera_fb_t) (b : Buf) (n : Nat)
    (hturns : env.turns = fails ++ [good]) (hk : fails.length = k)
    (hfail : ∀ e ∈ fails, e.fb_get = none)
    (hg : good.fb_get = some fb) (hp : payload_of good fb = some (b, n))
    (h1 : 0 < good.written_boundary) (h2 : 0 < good.written_header)
    (h3 : 0 < good.written_payload) (hn : n < 2 ^ 32)
    (hS1 : -2 ^ 31 ≤ fb.timestamp.tv_sec) (hS2 : fb.timestamp.tv_sec < 2 ^ 31)
    (hU1 : -2 ^ 31 ≤ fb.timestamp.tv_usec) (hU2 : fb.timestamp.tv_usec < 2 ^ 31) :
    (send_cam_stream last_frame env).res = none
      ∧ ∃ cycle : List Event,
          (send_cam_stream last_frame env).events
            = (if last_frame = 0 then [Event.esp_timer_get_time env.timer0] else [])
              ++ (List.replicate k
                  [Event.esp_camera_fb_get none, Event.log_e "Camera capture failed"]).flatten
              ++ cycle
          ∧ writes cycle =
              [(cstr "\r\n--123456789000000000000987654321\r\n", good.written_boundary),
               (header_spec n fb.timestamp.tv_sec fb.timestamp.tv_usec, good.written_header),
               (b.bytes.take n, good.written_payload)]
          ∧ captured cycle = [fb] ∧ returned cycle = [fb] := by
  obtain ⟨e1, _, e3⟩ := send_cam_stream_eq last_frame env
  obtain ⟨s1, r1, r2⟩ := while_true_retry [good] fails (entry last_frame env) hfail
  have hb : cstr _STREAM_BOUNDARY = cstr "\r\n--123456789000000000000987654321\r\n" := by decide
  have hspec := vformat_STREAM_PART_spec n fb.timestamp.tv_sec fb.timestamp.tv_usec hn hS1 hS2
    hU1 hU2
  rw [e1, e3, hturns, r1, r2, hk]
  by_cases hf : fb.format = .PIXFORMAT_JPEG
  · simp only [payload_of, hf, if_true, Option.some.injEq, Prod.mk.injEq] at hp
    obtain ⟨hp1, hp2⟩ := hp
    obtain ⟨hev, hctl⟩ := loop_body_jpeg_sent good s1 fb hg hf h1 h2 h3
    rw [hp1, hp2, hspec, hb] at hev
    refine ⟨by simp [while_true, hctl], (loop_body good s1).events, ?_, ?_, ?_, ?_⟩
    · simp [while_true, hctl, retry_events]
    · rw [hev]; simp [writes, as_write]
    · rw [hev]; simp [captured, as_captured]
    · rw [hev]; simp [returned, as_returned]
  · simp only [payload_of, hf, if_false] at hp
    obtain ⟨hev, hctl⟩ := loop_body_encoded_sent good s1 fb b n hg hf hp h1 h2 h3
    rw [hspec, hb] at hev
    refine ⟨by simp [while_true, hctl], (loop_body good s1).events, ?_, ?_, ?_, ?_⟩
    · simp [while_true, hctl, retry_events]
    · rw [hev]; simp [writes, as_write]
    · rw [hev]; simp [captured, as_captured]
    · rw [hev]; simp [returned, as_returned]

/-- Witness of C8: three failed captures, then the frame of 2048 bytes. -/
theorem C8_capture_retry_witness :
    (send_cam_stream 0
        ⟨1000000, ⟨0, 0⟩, [], [turn_no_frame, turn_no_frame, turn_no_frame, turn_2048]⟩).res = none
      ∧ ∃ cycle : List Event,
          (send_cam_stream 0
            ⟨1000000, ⟨0, 0⟩, [], [turn_no_frame, turn_no_frame, turn_no_frame, turn_2048]⟩).events
            = [Event.esp_timer_get_time 1000000]
              ++ (List.replicate 3
                  [Event.esp_camera_fb_get none, Event.log_e "Camera capture failed"]).flatten
              ++ cycle
          ∧ writes cycle =
              [(cstr "\r\n--123456789000000000000987654321\r\n", 36),
               (header_spec 2048 10 500000, 74),
               (List.take 2048 (List.replicate 2048 255), 2048)]
          ∧ captured cycle = [frame_2048] ∧ returned cycle = [frame_2048] :=
  C8_capture_retry 3 0
    ⟨1000000, ⟨0, 0⟩, [], [turn_no_frame, turn_no_frame, turn_no_frame, turn_2048]⟩
    [turn_no_frame, turn_no_frame, turn_no_frame] turn_2048 frame_2048 frame_2048.buf 2048
    rfl rfl (by decide) rfl rfl (by decide) (by decide) (by decide) (by decide) (by decide)
    (by decide) (by decide) (by decide)

/-- C5: when the connection attempt of `sendCameraFrames` succeeds, the first
transport write is one write of the 32 bytes of `_STREAM_HANDSHAKE`
(a6 f6 a0 7b ... ea 06); the other writes of the session are those of
`send_cam_stream` and all come after it. -/
theorem C5_handshake (server : IPAddress) (port : Nat) (env : SessionEnv)
    (hc : env.connected = true) :
    writes (sendCameraFrames server port env).events
        = (_STREAM_HANDSHAKE, env.written_handshake)
            :: writes (send_cam_stream env.last_frame env.stream).events
      ∧ _STREAM_HANDSHAKE.length = 32
      ∧ _STREAM_HANDSHAKE =
          [0xa6, 0xf6, 0xa0, 0x7b, 0xe9, 0xb6, 0xd0, 0xe5, 0x73, 0x4e, 0x06, 0x59, 0xcf, 0xc7,
           0xa3, 0xe9, 0xda, 0xca, 0xb5, 0x82, 0xf9, 0x11, 0xfe, 0xc7, 0x7f, 0xc0, 0xc4, 0x16,
           0x57, 0x7d, 0xea, 0x06]
      ∧ ∃ before after : List Event,
          (sendCameraFrames server port env).events
            = before ++ [.client_write _STREAM_HANDSHAKE env.written_handshake]
              ++ (send_cam_stream env.last_frame env.stream).events ++ after
          ∧ writes before = [] ∧ writes after = [] := by
  obtain ⟨hev, _⟩ := sendCameraFrames_connected server port env hc
  have hconf := (set_cam_conf_writes env.sensor_pixformat).1
  simp only [writes] at hconf
  refine ⟨?_, by decide, rfl, ?_⟩
  · rw [hev]
    by_cases hr : (send_cam_stream env.last_frame env.stream).res ≠ none <;>
      simp [hr, writes, List.filterMap_append, as_write, hconf]
  · refine ⟨_, _, hev, ?_, ?_⟩
    · simp [writes, List.filterMap_append, as_write, hconf]
    · by_cases hr : (send_cam_stream env.last_frame env.stream).res ≠ none <;>
        simp [hr, writes, as_write]

/-- Witness of C5: a session whose connection succeeds. -/
theorem C5_handshake_witness :
    writes (sendCameraFrames 3232235777 8080 session_up).events
      = (_STREAM_HANDSHAKE, 32)
          :: writes (send_cam_stream session_up.last_frame session_up.stream).events :=
  (C5_handshake 3232235777 8080 session_up rfl).1

/-- C7: (a) when the connection attempt of `sendCameraFrames` fails, the calls
are the connect timeout, the log line, the failed `connect` and the delay of
1000 ms: no handshake write, no sensor call, no Stream Driver call, no other
write; (b) when it succeeds and `send_cam_stream` returns, the calls end with
one `client.stop()` followed by the delay of 1000 ms, every write comes before
the stop, and neither a stop nor a delay occurs earlier; while
`send_cam_stream` has not returned, nothing is stopped or delayed. -/
theorem C7_session_outcome (server : IPAddress) (port : Nat) (env : SessionEnv) :
    (env.connected = false →
        (sendCameraFrames server port env).events
          = [.client_setTimeout 5, .log_i_connecting server port,
             .client_connect server port false, .delay 1000]
        ∧ (sendCameraFrames server port env).returned = true)
      ∧ (env.connected = true → (send_cam_stream env.last_frame env.stream).res ≠ none →
          (sendCameraFrames server port env).returned = true
          ∧ ∃ before : List Event,
              (sendCameraFrames server port env).events
                = before ++ [.client_stop, .delay 1000]
              ∧ Event.client_stop ∉ before ∧ (∀ ms, Event.delay ms ∉ before)
              ∧ writes before = writes (sendCameraFrames server port env).events)
      ∧ (env.connected = true → (send_cam_stream env.last_frame env.stream).res = none →
          (sendCameraFrames server port env).returned = false
          ∧ Event.client_stop ∉ (sendCameraFrames server port env).events
          ∧ ∀ ms, Event.delay ms ∉ (sendCameraFrames server port env).events) := by
  have hdrv := send_cam_stream_no_session_call env.last_frame env.stream
  have hstop : Event.client_stop ∉ (send_cam_stream env.last_frame env.stream).events := by
    intro h
    have := hdrv _ h
    simp [is_session_call] at this
  have hdelay : ∀ ms, Event.delay ms ∉ (send_cam_stream env.last_frame env.stream).events := by
    intro ms h
    have := hdrv _ h
    simp [is_session_call] at this
  obtain ⟨c1, c2, c3, _⟩ := set_cam_conf_writes env.sensor_pixformat
  refine ⟨?_, ?_, ?_⟩
  · intro hc
    simp [sendCameraFrames, hc]
  · intro hc hr
    obtain ⟨hev, hret⟩ := sendCameraFrames_connected server port env hc
    refine ⟨hret.2 hr, _, by rw [hev, if_pos hr], ?_, ?_, ?_⟩
    · simp [hstop, c2]
    · intro ms
      simp [hdelay ms, c3 ms]
    · rw [hev, if_pos hr]
      simp [writes, List.filterMap_append, as_write]
  · intro hc hr
    obtain ⟨hev, hret⟩ := sendCameraFrames_connected server port env hc
    refine ⟨?_, ?_, ?_⟩
    · cases hb : (sendCameraFrames server port env).returned with
      | false => rfl
      | true => exact absurd hr (hret.1 hb)
    · rw [hev]
      simp [hr, hstop, c2]
    · intro ms
      rw [hev]
      simp [hr, hdelay ms, c3 ms]

/-- Witness of C7: a connection attempt that fails, and a session whose stream
ends at a header write that returns zero. -/
theorem C7_session_outcome_witness :
    (sendCameraFrames 3232235777 8080 session_down).events
        = [.client_setTimeout 5, .log_i_connecting 3232235777 8080,
           .client_connect 3232235777 8080 false, .delay 1000]
      ∧ ∃ before : List Event,
          (sendCameraFrames 3232235777 8080 session_up).events
            = before ++ [.client_stop, .delay 1000]
          ∧ Event.client_stop ∉ before ∧ (∀ ms, Event.delay ms ∉ before)
          ∧ writes before = writes (sendCameraFrames 3232235777 8080 session_up).events :=
  ⟨((C7_session_outcome 3232235777 8080 session_down).1 rfl).1,
    ((C7_session_outcome 3232235777 8080 session_up).2.1 rfl (by decide)).2⟩

/-- C9, as the claim states it, fails: in a session whose connection succeeds
the handshake write does not come before the first sensor call. -/
theorem C9_counterexample :
    ¬ ((sendCameraFrames 3232235777 8080 session_up).events.findIdx is_handshake_write
        < (sendCameraFrames 3232235777 8080 session_up).events.findIdx is_sensor_call) := by
  have h := sendCameraFrames_order 3232235777 8080 session_up rfl
  omega

/-- C9, amended: on a successful connection `sendCameraFrames` sets the
connect timeout, connects, switches the transport to the mode without timeout
(`setTimeout(0)`), applies the sensor configuration (`set_cam_conf`), writes the
handshake token as one write, then runs `send_cam_stream`, and closes and
delays once that has returned; the sensor configuration comes before the
handshake write. -/
theorem C9_session_step_order (server : IPAddress) (port : Nat) (env : SessionEnv)
    (hc : env.connected = true) :
    (sendCameraFrames server port env).events =
        [.client_setTimeout 5, .log_i_connecting server port, .client_connect server port true,
         .client_setTimeout 0, .log_i "Sending camera stream"]
        ++ set_cam_conf env.sensor_pixformat
        ++ [.client_write _STREAM_HANDSHAKE env.written_handshake]
        ++ (send_cam_stream env.last_frame env.stream).events
        ++ (if (send_cam_stream env.last_frame env.stream).res ≠ none
            then [.client_stop, .delay 1000] else [])
      ∧ (sendCameraFrames server port env).events.findIdx is_sensor_call
          < (sendCameraFrames server port env).events.findIdx is_handshake_write := by
  obtain ⟨h1, h2⟩ := sendCameraFrames_order server port env hc
  exact ⟨(sendCameraFrames_connected server port env hc).1, by omega⟩

/-- Witness of the amended C9: a session whose connection succeeds. -/
theorem C9_session_step_order_witness :
    (sendCameraFrames 3232235777 8080 session_up).events.findIdx is_sensor_call
      < (sendCameraFrames 3232235777 8080 session_up).events.findIdx is_handshake_write :=
  (C9_session_step_order 3232235777 8080 session_up rfl).2

set_option maxRecDepth 100000 in
/-- C10, as the claim states it, fails: one JPEG frame whose payload holds the
36 bytes of the boundary marker in a comment segment is sent with three
complete writes, and the bytes written contain the marker twice, not once. -/
theorem C10_counterexample :
    List.Forall₂ sends [turn_marker] [wire_marker]
      ∧ (send_cam_stream 0 ⟨1000000, ⟨0, 0⟩, [], [turn_marker]⟩).res = none
      ∧ occurrences (cstr "\r\n--123456789000000000000987654321\r\n")
          (wire_bytes (send_cam_stream 0 ⟨1000000, ⟨0, 0⟩, [], [turn_marker]⟩).events) = 2
      ∧ ¬ occurrences (cstr "\r\n--123456789000000000000987654321\r\n")
          (wire_bytes (send_cam_stream 0 ⟨1000000, ⟨0, 0⟩, [], [turn_marker]⟩).events)
            = [wire_marker].length := by
  have hocc : occurrences (cstr "\r\n--123456789000000000000987654321\r\n")
      (wire_bytes (send_cam_stream 0 ⟨1000000, ⟨0, 0⟩, [], [turn_marker]⟩).events) = 2 := by
    decide
  refine ⟨?_, by rfl, hocc, ?_⟩
  · exact List.Forall₂.cons sends_turn_marker List.Forall₂.nil
  · rw [hocc]
    decide

/-- C10, amended: when `N` frames are all sent, the writes of the Stream
Driver are, frame after frame, the boundary marker, the header of that frame
and its payload: `3 * N` writes, the bytes on the wire are the concatenation
of the `N` framed units, and the last write is the payload of the last frame,
with no boundary written after it. -/
theorem C10_boundary_prefixing (last_frame : Int) (env : StreamEnv) (frames : List WireFrame)
    (h : List.Forall₂ sends env.turns frames) :
    (send_cam_stream last_frame env).res = none
      ∧ written_data (send_cam_stream last_frame env).events
          = frames.flatMap (fun f =>
              [cstr "\r\n--123456789000000000000987654321\r\n",
               header_spec f.len f.timestamp.tv_sec f.timestamp.tv_usec,
               f.payload])
      ∧ wire_bytes (send_cam_stream last_frame env).events
          = (frames.map (fun f =>
              cstr "\r\n--123456789000000000000987654321\r\n"
                ++ header_spec f.len f.timestamp.tv_sec f.timestamp.tv_usec
                ++ f.payload)).flatten
      ∧ (written_data (send_cam_stream last_frame env).events).length = 3 * frames.length
      ∧ ∀ f, frames.getLast? = some f →
          (written_data (send_cam_stream last_frame env).events).getLast? = some f.payload := by
  obtain ⟨e1, _, e3⟩ := send_cam_stream_eq last_frame env
  obtain ⟨w1, w2⟩ := while_true_sends env.turns frames (entry last_frame env) h
  have hb : cstr _STREAM_BOUNDARY = cstr "\r\n--123456789000000000000987654321\r\n" := by decide
  have hd : written_data (send_cam_stream last_frame env).events
      = frames.flatMap (fun f =>
          [cstr "\r\n--123456789000000000000987654321\r\n",
           header_spec f.len f.timestamp.tv_sec f.timestamp.tv_usec,
           f.payload]) := by
    have : written_data (send_cam_stream last_frame env).events
        = written_data (while_true env.turns (entry last_frame env)).events := by
      rw [e3]
      by_cases h0 : last_frame = 0
      · subst h0; simp [written_data, writes, as_write]
      · simp [h0]
    have hunit : framed_unit = fun f =>
        [cstr "\r\n--123456789000000000000987654321\r\n",
         header_spec f.len f.timestamp.tv_sec f.timestamp.tv_usec,
         f.payload] := by
      funext f
      simp only [framed_unit, hb]
    rw [this, w2, hunit]
  refine ⟨by rw [e1, w1], hd, ?_, ?_, ?_⟩
  · rw [wire_bytes, hd]
    clear hd h w2
    induction frames with
    | nil => simp
    | cons f fs ih => simp [List.flatMap_cons, ih]
  · rw [hd]
    clear hd h w2
    induction frames with
    | nil => simp
    | cons f fs ih => simp [List.flatMap_cons, ih]; omega
  · intro f hf
    rw [hd]
    clear hd h w2
    induction frames with
    | nil => simp at hf
    | cons g gs ih =>
      obtain ⟨ys, hys⟩ := List.getLast?_eq_some_iff.1 hf
      rw [hys]
      simp [List.flatMap_append]

/-- Witness of the amended C10: the frame of 44 bytes, sent twice. -/
theorem C10_boundary_prefixing_witness :
    (written_data
        (send_cam_stream 0 ⟨1000000, ⟨0, 0⟩, [], [turn_marker, turn_marker]⟩).events).length
      = 3 * 2 :=
  (C10_boundary_prefixing 0 ⟨1000000, ⟨0, 0⟩, [], [turn_marker, turn_marker]⟩
    [wire_marker, wire_marker]
    (List.Forall₂.cons sends_turn_marker
      (List.Forall₂.cons sends_turn_marker List.Forall₂.nil))).2.2.2.1

end EspCamPush
